import Mathlib

/-!
# The `mutating` commands of pspmigrator (`cmd/mutating.go`)

A shallow embedding of the three `Run` functions registered by `initMutating`:
`mutating pod`, `mutating pods` and `mutating psp`.

The commands are orchestration over external calls (the Kubernetes client, the
detector `pspmigrator.IsPodBeingMutatedByPSP`, the analyzer
`pspmigrator.IsPSPMutating`, the table writer, `fmt`, `log`, `os.Exit`).  Every
external call is a field of `Cluster`, which threads an abstract state `σ`, so a
call may answer differently each time it is made.  A run yields the ordered list
of the effects it performed and the way the process ended.
-/

set_option autoImplicit false

namespace Pspmigrator

/-! ## Data model -/

/-- What the commands observe of a Go `error` value that is not nil:
`errors.IsNotFound(err)`, the type assertion `err.(*errors.StatusError)` (with
`ErrStatus.Message` when it succeeds) and `err.Error()`. -/
structure Err where
  isNotFound : Bool
  status : Option String
  text : String
  deriving DecidableEq, Repr

/-- The fields of `v1.Pod` the commands read: `Name`, `Namespace` and
`ObjectMeta.Annotations` (a Go map, here an association list). -/
structure Pod where
  Name : String
  Namespace : String
  Annotations : List (String × String)
  deriving DecidableEq, Repr

/-- The package variables `Namespace` and `ContainersToIgnore` of `cmd/root.go`,
bound to the flags `--namespace` and `--containersToIgnore`. -/
structure Globals where
  Namespace : String
  ContainersToIgnore : String
  deriving DecidableEq, Repr

/-- Verbs of the typed Kubernetes client. -/
inductive Verb where
  | get | list | watch | create | update | updateStatus | patch | delete | deleteCollection
  deriving DecidableEq, Repr

/-- The two resources the commands address. -/
inductive Resource where
  | pods | podsecuritypolicies
  deriving DecidableEq, Repr

/-- One request issued on `clientset`. -/
structure ClientCall where
  verb : Verb
  resource : Resource
  ns : String
  name : String
  deriving DecidableEq, Repr

/-- The effects of a run, in program order.  `detect` and `analyze` record the
arguments passed and the values returned.  `log` holds the message handed to the
standard logger (which writes it to stderr behind a date and time). -/
inductive Event (PSP Diff : Type) where
  | client (c : ClientCall)
  | detect (pod : Pod) (containersToIgnore : String) (mutated : Bool) (diff : Diff)
      (err : Option Err)
  | analyze (pspObj : PSP) (mutating : Bool) (fields annotations : List String)
  | stdout (s : String)
  | log (s : String)
  | tableHeader (cols : List String)
  | tableAppend (row : List String)
  | tableRender
  deriving DecidableEq, Repr

/-- How the process ends: the `Run` function returns, `os.Exit(code)` is called,
or a `panic` is raised. -/
inductive Outcome where
  | returned
  | exit (code : Nat)
  | panicked (msg : String)
  deriving DecidableEq, Repr

/-- Exit status of the process: 0 after a normal return, the code given to
`os.Exit`, and 2 for an unrecovered Go panic. -/
def Outcome.status : Outcome → Nat
  | .returned => 0
  | .exit code => code
  | .panicked _ => 2

/-- Result of one run. -/
structure Run (PSP Diff : Type) where
  events : List (Event PSP Diff)
  outcome : Outcome
  deriving DecidableEq, Repr

/-- Answer of an external call made in state `σ`: the value, the Go `error`
(`none` for nil) and the state after the call. -/
structure Reply (σ α : Type) where
  val : α
  err : Option Err
  next : σ

/-- The external collaborators of the commands.  `getPod ns name` is
`clientset.CoreV1().Pods(ns).Get`, `getPSP name` is
`clientset.PolicyV1beta1().PodSecurityPolicies().Get`, `listPods` is the pod
List over all namespaces.  The detector receives the pod, `clientset` (the
state) and the ignore string; the analyzer receives the policy object only.
`fmtDiff` is the `%v` rendering of the detector's diff value. -/
structure Cluster (σ PSP Diff : Type) where
  getPod : σ → String → String → Reply σ Pod
  getPSP : σ → String → Reply σ PSP
  listPods : σ → Reply σ (List Pod)
  IsPodBeingMutatedByPSP : σ → Pod → String → Reply σ (Bool × Diff)
  IsPSPMutating : PSP → Bool × List String × List String
  fmtDiff : Diff → String

/-! ## Library functions used by the commands -/

/-- `errors.IsNotFound(err)`; false on nil. -/
def IsNotFound : Option Err → Bool
  | none => false
  | some e => e.isNotFound

/-- `statusError, isStatus := err.(*errors.StatusError)`: the message of the
status when the assertion succeeds. -/
def asStatusError : Option Err → Option String
  | none => none
  | some e => e.status

/-- `strconv.FormatBool`, also the `%v` rendering of a bool. -/
def FormatBool : Bool → String
  | true => "true"
  | false => "false"

/-- The `%v` rendering of a `[]string`. -/
def fmtStrings (xs : List String) : String :=
  "[" ++ " ".intercalate xs ++ "]"

/-- The annotation key `kubernetes.io/psp`. -/
def pspAnnotationKey : String := "kubernetes.io/psp"

/-- Lookup `pod.ObjectMeta.Annotations["kubernetes.io/psp"]` with the `ok` flag. -/
def Pod.psp (pod : Pod) : Option String :=
  pod.Annotations.lookup pspAnnotationKey

/-! ## Messages (the format strings of `cmd/mutating.go`) -/

/-- `"Pod %s in namespace %s not found\n"`. -/
def podNotFoundMsg (pod ns : String) : String :=
  "Pod " ++ pod ++ " in namespace " ++ ns ++ " not found\n"

/-- `"Error getting pod %s in namespace %s: %v\n"`. -/
def podGetErrorMsg (pod ns msg : String) : String :=
  "Error getting pod " ++ pod ++ " in namespace " ++ ns ++ ": " ++ msg ++ "\n"

/-- `"Pod %v is mutated by PSP %v: %v, diff: %v\n"`. -/
def podMutatedMsg (name pspName : String) (mutated : Bool) (diff : String) : String :=
  "Pod " ++ name ++ " is mutated by PSP " ++ pspName ++ ": " ++ FormatBool mutated
    ++ ", diff: " ++ diff ++ "\n"

/-- `"PodSecurityPolicy %s not found\n"`. -/
def pspNotFoundMsg (pspName : String) : String :=
  "PodSecurityPolicy " ++ pspName ++ " not found\n"

/-- `"Error getting PodSecurityPolicy %s: %v\n"`. -/
def pspGetErrorMsg (pspName msg : String) : String :=
  "Error getting PodSecurityPolicy " ++ pspName ++ ": " ++ msg ++ "\n"

/-- `"PSP profile %v has the following mutating fields: %v and annotations: %v\n"`. -/
def pspProfileMsg (pspName : String) (fields annotations : List String) : String :=
  "PSP profile " ++ pspName ++ " has the following mutating fields: " ++ fmtStrings fields
    ++ " and annotations: " ++ fmtStrings annotations ++ "\n"

/-- `"There are %d pods in the cluster\n"`. -/
def podCountMsg (n : Nat) : String :=
  "There are " ++ toString n ++ " pods in the cluster\n"

/-- `log.Println("error occured checking if pod is mutated:", err)`. -/
def detectErrorLog (e : Err) : String :=
  "error occured checking if pod is mutated: " ++ e.text ++ "\n"

/-- `log.Fatalln("Error getting pods", err.Error())`. -/
def getPodsErrorLog (e : Err) : String :=
  "Error getting pods " ++ e.text ++ "\n"

/-- `log.Println(err)` and `log.Fatalln(err.Error())`. -/
def errorLog (e : Err) : String :=
  e.text ++ "\n"

/-- The request `clientset.CoreV1().Pods(ns).Get(ctx, name, ...)`. -/
def podGetCall (ns name : String) : ClientCall :=
  ⟨.get, .pods, ns, name⟩

/-- The request `clientset.PolicyV1beta1().PodSecurityPolicies().Get(ctx, name, ...)`;
the resource is cluster scoped. -/
def pspGetCall (name : String) : ClientCall :=
  ⟨.get, .podsecuritypolicies, "", name⟩

/-- The pod List over all namespaces. -/
def podListCall : ClientCall :=
  ⟨.list, .pods, "", ""⟩

/-- The table header set by `mutating pods`. -/
def tableHeaderCols : List String := ["Name", "Namespace", "Mutated", "PSP"]

section Commands

variable {σ PSP Diff : Type}

/-! ## `mutating psp` -/

/-- `pspCmd.Run` (`cmd/mutating.go`, lines 114-135); `pspName` is `args[0]`
(`cobra.ExactArgs(1)`). -/
def pspCmd (W : Cluster σ PSP Diff) (_G : Globals) (pspName : String) (s : σ) : Run PSP Diff :=
  let r := W.getPSP s pspName
  let t := [Event.client (pspGetCall pspName)]
  if IsNotFound r.err then
    ⟨t ++ [.stdout (pspNotFoundMsg pspName)], .exit 1⟩
  else
    match asStatusError r.err with
    | some msg => ⟨t ++ [.stdout (pspGetErrorMsg pspName msg)], .exit 1⟩
    | none =>
      match r.err with
      | some e => ⟨t ++ [.log (errorLog e)], .exit 1⟩
      | none =>
        let a := W.IsPSPMutating r.val
        ⟨t ++ [.analyze r.val a.1 a.2.1 a.2.2, .stdout (pspProfileMsg pspName a.2.1 a.2.2)],
          .returned⟩

/-! ## `mutating pod` -/

/-- The block of `podCmd.Run` under `if pspName, ok := ...; ok` (lines 62-74):
the report line, the policy lookup and the analyzer. -/
def podCmdPolicy (W : Cluster σ PSP Diff) (podObj : Pod) (pspName : String) (mutated : Bool)
    (diff : Diff) (s : σ) : Run PSP Diff :=
  let t := [Event.stdout (podMutatedMsg podObj.Name pspName mutated (W.fmtDiff diff)),
    Event.client (pspGetCall pspName)]
  let r := W.getPSP s pspName
  if IsNotFound r.err then
    ⟨t ++ [.stdout (pspNotFoundMsg pspName)], .returned⟩
  else
    match asStatusError r.err with
    | some msg => ⟨t ++ [.stdout (pspGetErrorMsg pspName msg)], .returned⟩
    | none =>
      match r.err with
      | some e => ⟨t, .panicked e.text⟩
      | none =>
        let a := W.IsPSPMutating r.val
        ⟨t ++ [.analyze r.val a.1 a.2.1 a.2.2, .stdout (pspProfileMsg pspName a.2.1 a.2.2)],
          .returned⟩

/-- The final `else` block of `podCmd.Run` (lines 56-76): the detector, then the
policy block when the pod carries the annotation. -/
def podCmdDetect (W : Cluster σ PSP Diff) (G : Globals) (podObj : Pod) (s : σ) : Run PSP Diff :=
  let d := W.IsPodBeingMutatedByPSP s podObj G.ContainersToIgnore
  let t := [Event.detect podObj G.ContainersToIgnore d.val.1 d.val.2 d.err]
  match d.err with
  | some e => ⟨t ++ [.log (errorLog e)], .exit 1⟩
  | none =>
    match podObj.psp with
    | some pspName =>
      let p := podCmdPolicy W podObj pspName d.val.1 d.val.2 d.next
      ⟨t ++ p.events, p.outcome⟩
    | none => ⟨t, .returned⟩

/-- `podCmd.Run` (`cmd/mutating.go`, lines 42-78); `pod` is `args[0]`
(`cobra.ExactArgs(1)`). -/
def podCmd (W : Cluster σ PSP Diff) (G : Globals) (pod : String) (s : σ) : Run PSP Diff :=
  let r := W.getPod s G.Namespace pod
  let t := [Event.client (podGetCall G.Namespace pod)]
  if IsNotFound r.err then
    ⟨t ++ [.stdout (podNotFoundMsg pod G.Namespace)], .exit 1⟩
  else
    match asStatusError r.err with
    | some msg => ⟨t ++ [.stdout (podGetErrorMsg pod G.Namespace msg)], .exit 1⟩
    | none =>
      match r.err with
      | some e => ⟨t ++ [.log (errorLog e)], .exit 1⟩
      | none =>
        let p := podCmdDetect W G r.val r.next
        ⟨t ++ p.events, p.outcome⟩

/-! ## `mutating pods` -/

/-- Modelled from the spec: `GetPods` is declared in a file of package `cmd` that
is not part of the sources at hand; it is the accessor operation
`listPods() -> list<Pod>` of the spec, the enumeration of pods via a list call:
one pod List over all namespaces, whose items and error are handed back. -/
def GetPods (W : Cluster σ PSP Diff) (s : σ) : List (Event PSP Diff) × Reply σ (List Pod) :=
  ([Event.client podListCall], W.listPods s)

/-- The `for _, pod := range pods.Items` loop of `podsCmd.Run` (lines 97-105). -/
def podsLoop (W : Cluster σ PSP Diff) : σ → List Pod → List (Event PSP Diff)
  | _, [] => []
  | s, pod :: rest =>
    match pod.psp with
    | some pspName =>
      let d := W.IsPodBeingMutatedByPSP s pod ""
      let logged : List (Event PSP Diff) :=
        match d.err with
        | some e => [.log (detectErrorLog e)]
        | none => []
      [Event.detect pod "" d.val.1 d.val.2 d.err] ++ logged
        ++ [.tableAppend [pod.Name, pod.Namespace, FormatBool d.val.1, pspName]]
        ++ podsLoop W d.next rest
    | none => podsLoop W s rest

/-- `podsCmd.Run` (`cmd/mutating.go`, lines 89-107); the command takes no
arguments (`cobra.NoArgs`). -/
def podsCmd (W : Cluster σ PSP Diff) (_G : Globals) (s : σ) : Run PSP Diff :=
  let t := [Event.tableHeader tableHeaderCols]
  let g := GetPods W s
  let pods := g.2
  match pods.err with
  | some e => ⟨t ++ g.1 ++ [.log (getPodsErrorLog e)], .exit 1⟩
  | none =>
    ⟨t ++ g.1 ++ [.stdout (podCountMsg pods.val.length)] ++ podsLoop W pods.next pods.val
      ++ [.tableRender], .returned⟩

end Commands

/-! ## Projections of a trace -/

section Projections

variable {PSP Diff : Type}

/-- The requests issued on the client, in order. -/
def clientCalls (t : List (Event PSP Diff)) : List ClientCall :=
  t.filterMap fun
    | .client c => some c
    | _ => none

/-- A detector call: pod, ignore string, and the three values returned. -/
structure DetectCall (Diff : Type) where
  pod : Pod
  containersToIgnore : String
  mutated : Bool
  diff : Diff
  err : Option Err
  deriving DecidableEq, Repr

/-- The detector calls, in order. -/
def detectCalls (t : List (Event PSP Diff)) : List (DetectCall Diff) :=
  t.filterMap fun
    | .detect pod c m d e => some ⟨pod, c, m, d, e⟩
    | _ => none

/-- The policy objects handed to the analyzer, in order. -/
def analyzeCalls (t : List (Event PSP Diff)) : List PSP :=
  t.filterMap fun
    | .analyze pspObj _ _ _ => some pspObj
    | _ => none

/-- What was written to stdout with `fmt.Printf`, in order. -/
def stdoutLines (t : List (Event PSP Diff)) : List String :=
  t.filterMap fun
    | .stdout s => some s
    | _ => none

/-- What was handed to the logger, in order. -/
def logLines (t : List (Event PSP Diff)) : List String :=
  t.filterMap fun
    | .log s => some s
    | _ => none

/-- The rows appended to the table, in order. -/
def tableRows (t : List (Event PSP Diff)) : List (List String) :=
  t.filterMap fun
    | .tableAppend row => some row
    | _ => none

/-- Whether `table.Render()` was called. -/
def rendered (t : List (Event PSP Diff)) : Bool :=
  t.any fun
    | .tableRender => true
    | _ => false

end Projections

section Batch

variable {σ PSP Diff : Type}

/-- The pods of a list that carry the `kubernetes.io/psp` annotation, in order. -/
def annotatedPods (pods : List Pod) : List Pod :=
  pods.filter fun pod => pod.psp.isSome

/-- The detector applied to the pods of a list one after the other with the empty
ignore string, each call made in the state the call before it left. -/
def detections (W : Cluster σ PSP Diff) : σ → List Pod → List (DetectCall Diff)
  | _, [] => []
  | s, pod :: rest =>
    ⟨pod, "", (W.IsPodBeingMutatedByPSP s pod "").val.1, (W.IsPodBeingMutatedByPSP s pod "").val.2,
      (W.IsPodBeingMutatedByPSP s pod "").err⟩ ::
      detections W (W.IsPodBeingMutatedByPSP s pod "").next rest

/-- The table row of a detector call: name, namespace, the formatted `mutated`
value and the value of the pod's `kubernetes.io/psp` annotation. -/
def rowOf (c : DetectCall Diff) : List String :=
  [c.pod.Name, c.pod.Namespace, FormatBool c.mutated, c.pod.psp.getD ""]

/-- The log line of a detector call: the error message when it failed. -/
def logOf (c : DetectCall Diff) : Option String :=
  c.err.map detectErrorLog

/-- The cluster whose detector answers as that of `W` but never with an error. -/
def Cluster.withoutDetectorErrors (W : Cluster σ PSP Diff) : Cluster σ PSP Diff :=
  { W with
    IsPodBeingMutatedByPSP := fun s pod c =>
      ⟨(W.IsPodBeingMutatedByPSP s pod c).val, none, (W.IsPodBeingMutatedByPSP s pod c).next⟩ }

end Batch

section Frame

variable {σ PSP Diff : Type}

/-! ## Runs with the state they leave

The same three `Run` functions, each returned together with the state of the
cluster after its last external call. -/

/-- `pspCmd.Run` (lines 114-135) with the state at the end of the run. -/
def pspCmdStep (W : Cluster σ PSP Diff) (_G : Globals) (pspName : String) (s : σ) :
    Run PSP Diff × σ :=
  let r := W.getPSP s pspName
  let t := [Event.client (pspGetCall pspName)]
  if IsNotFound r.err then
    (⟨t ++ [.stdout (pspNotFoundMsg pspName)], .exit 1⟩, r.next)
  else
    match asStatusError r.err with
    | some msg => (⟨t ++ [.stdout (pspGetErrorMsg pspName msg)], .exit 1⟩, r.next)
    | none =>
      match r.err with
      | some e => (⟨t ++ [.log (errorLog e)], .exit 1⟩, r.next)
      | none =>
        let a := W.IsPSPMutating r.val
        (⟨t ++ [.analyze r.val a.1 a.2.1 a.2.2, .stdout (pspProfileMsg pspName a.2.1 a.2.2)],
          .returned⟩, r.next)

/-- The policy block of `podCmd.Run` (lines 62-74) with the state at its end. -/
def podCmdPolicyStep (W : Cluster σ PSP Diff) (podObj : Pod) (pspName : String)
    (mutated : Bool) (diff : Diff) (s : σ) : Run PSP Diff × σ :=
  let t := [Event.stdout (podMutatedMsg podObj.Name pspName mutated (W.fmtDiff diff)),
    Event.client (pspGetCall pspName)]
  let r := W.getPSP s pspName
  if IsNotFound r.err then
    (⟨t ++ [.stdout (pspNotFoundMsg pspName)], .returned⟩, r.next)
  else
    match asStatusError r.err with
    | some msg => (⟨t ++ [.stdout (pspGetErrorMsg pspName msg)], .returned⟩, r.next)
    | none =>
      match r.err with
      | some e => (⟨t, .panicked e.text⟩, r.next)
      | none =>
        let a := W.IsPSPMutating r.val
        (⟨t ++ [.analyze r.val a.1 a.2.1 a.2.2, .stdout (pspProfileMsg pspName a.2.1 a.2.2)],
          .returned⟩, r.next)

/-- The final `else` block of `podCmd.Run` (lines 56-76) with the state at its end. -/
def podCmdDetectStep (W : Cluster σ PSP Diff) (G : Globals) (podObj : Pod) (s : σ) :
    Run PSP Diff × σ :=
  let d := W.IsPodBeingMutatedByPSP s podObj G.ContainersToIgnore
  let t := [Event.detect podObj G.ContainersToIgnore d.val.1 d.val.2 d.err]
  match d.err with
  | some e => (⟨t ++ [.log (errorLog e)], .exit 1⟩, d.next)
  | none =>
    match podObj.psp with
    | some pspName =>
      let p := podCmdPolicyStep W podObj pspName d.val.1 d.val.2 d.next
      (⟨t ++ p.1.events, p.1.outcome⟩, p.2)
    | none => (⟨t, .returned⟩, d.next)

/-- `podCmd.Run` (lines 42-78) with the state at the end of the run. -/
def podCmdStep (W : Cluster σ PSP Diff) (G : Globals) (pod : String) (s : σ) :
    Run PSP Diff × σ :=
  let r := W.getPod s G.Namespace pod
  let t := [Event.client (podGetCall G.Namespace pod)]
  if IsNotFound r.err then
    (⟨t ++ [.stdout (podNotFoundMsg pod G.Namespace)], .exit 1⟩, r.next)
  else
    match asStatusError r.err with
    | some msg => (⟨t ++ [.stdout (podGetErrorMsg pod G.Namespace msg)], .exit 1⟩, r.next)
    | none =>
      match r.err with
      | some e => (⟨t ++ [.log (errorLog e)], .exit 1⟩, r.next)
      | none =>
        let p := podCmdDetectStep W G r.val r.next
        (⟨t ++ p.1.events, p.1.outcome⟩, p.2)

/-- The loop of `podsCmd.Run` (lines 97-105) with the state at its end. -/
def podsLoopStep (W : Cluster σ PSP Diff) : σ → List Pod → List (Event PSP Diff) × σ
  | s, [] => ([], s)
  | s, pod :: rest =>
    match pod.psp with
    | some pspName =>
      let d := W.IsPodBeingMutatedByPSP s pod ""
      let logged : List (Event PSP Diff) :=
        match d.err with
        | some e => [.log (detectErrorLog e)]
        | none => []
      ([Event.detect pod "" d.val.1 d.val.2 d.err] ++ logged
        ++ [.tableAppend [pod.Name, pod.Namespace, FormatBool d.val.1, pspName]]
        ++ (podsLoopStep W d.next rest).1, (podsLoopStep W d.next rest).2)
    | none => podsLoopStep W s rest

/-- `podsCmd.Run` (lines 89-107) with the state at the end of the run. -/
def podsCmdStep (W : Cluster σ PSP Diff) (_G : Globals) (s : σ) : Run PSP Diff × σ :=
  let t := [Event.tableHeader tableHeaderCols]
  let g := GetPods W s
  let pods := g.2
  match pods.err with
  | some e => (⟨t ++ g.1 ++ [.log (getPodsErrorLog e)], .exit 1⟩, pods.next)
  | none =>
    (⟨t ++ g.1 ++ [.stdout (podCountMsg pods.val.length)]
        ++ (podsLoopStep W pods.next pods.val).1 ++ [.tableRender], .returned⟩,
      (podsLoopStep W pods.next pods.val).2)

/-! ## The detector of the spec -/

/-- Modelled from the spec: the requests of the detector
`pspmigrator.IsPodBeingMutatedByPSP` on the client it is handed; the function is
declared outside the sources at hand.  The detector resolves the policy bound to
the pod, named by the pod's annotation, through the cluster accessor: one policy
read for a pod that carries the annotation, none for a pod that does not.  It
has no side effects beyond this read. -/
def detectorRequests (pod : Pod) : List ClientCall :=
  match pod.psp with
  | some pspName => [pspGetCall pspName]
  | none => []

/-- Modelled from the spec: the detector `pspmigrator.IsPodBeingMutatedByPSP`,
declared outside the sources at hand.  A pod without the annotation gives
`mutated = false`, the empty diff and no error, without any read; otherwise the
bound policy is read once, a failure of that read is handed back unchanged, and
the result is computed from the pod, the policy and the ignore string alone
(`compare`, which may fail on a malformed policy). -/
def specDetector (W : Cluster σ PSP Diff)
    (compare : Pod → PSP → String → Bool × Diff × Option Err) (emptyDiff : Diff)
    (s : σ) (pod : Pod) (ignore : String) : Reply σ (Bool × Diff) :=
  match pod.psp with
  | none => ⟨(false, emptyDiff), none, s⟩
  | some pspName =>
    match (W.getPSP s pspName).err with
    | some e => ⟨(false, emptyDiff), some e, (W.getPSP s pspName).next⟩
    | none =>
      ⟨((compare pod (W.getPSP s pspName).val ignore).1,
          (compare pod (W.getPSP s pspName).val ignore).2.1),
        (compare pod (W.getPSP s pspName).val ignore).2.2, (W.getPSP s pspName).next⟩

/-- The cluster `W` with the detector of the spec in place of its own. -/
def Cluster.withSpecDetector (W : Cluster σ PSP Diff)
    (compare : Pod → PSP → String → Bool × Diff × Option Err) (emptyDiff : Diff) :
    Cluster σ PSP Diff :=
  { W with IsPodBeingMutatedByPSP := specDetector W compare emptyDiff }

/-- All requests that reach the client in a run: those the `Run` function and
`GetPods` issue, and for every detector call the requests of the detector. -/
def requests (t : List (Event PSP Diff)) : List ClientCall :=
  t.flatMap fun
    | .client c => [c]
    | .detect pod _ _ _ _ => detectorRequests pod
    | _ => []

/-- Get and List leave the objects stored in the cluster as they are: `objects`
reads the stored objects off a state. -/
def ReadsPreserve {κ : Type} (W : Cluster σ PSP Diff) (objects : σ → κ) : Prop :=
  (∀ s ns name, objects (W.getPod s ns name).next = objects s) ∧
    (∀ s name, objects (W.getPSP s name).next = objects s) ∧
    (∀ s, objects (W.listPods s).next = objects s)

end Frame

/-! ## Example clusters

Small stateless clusters on which the commands are evaluated.  Policy objects
are represented by their names and diffs by strings. -/

/-- The error of a lookup of an object that does not exist. -/
def notFoundErr (what : String) : Err :=
  ⟨true, some (what ++ " not found"), what ++ " not found"⟩

/-- A status error of the API server other than NotFound. -/
def forbiddenErr : Err :=
  ⟨false, some "forbidden: access denied", "forbidden: access denied"⟩

/-- An error that is no status error. -/
def dialErr : Err :=
  ⟨false, none, "dial tcp: connection refused"⟩

/-- The error of a failed detection. -/
def detectErr : Err :=
  ⟨false, none, "malformed policy"⟩

/-- A pod bound to the policy `restricted`. -/
def webPod : Pod :=
  ⟨"web", "default", [("kubernetes.io/psp", "restricted")]⟩

/-- A pod without the `kubernetes.io/psp` annotation. -/
def plainPod : Pod :=
  ⟨"plain", "default", [("app", "plain")]⟩

/-- A pod bound to the policy `privileged`. -/
def dbPod : Pod :=
  ⟨"db", "prod", [("app", "db"), ("kubernetes.io/psp", "privileged")]⟩

/-- The options of an example run: namespace `default`, containers to ignore `istio-proxy`. -/
def demoGlobals : Globals :=
  ⟨"default", "istio-proxy"⟩

/-- A cluster holding `webPod`, `plainPod` and `dbPod` and the policies `restricted`
and `privileged`; every lookup of another name answers NotFound, every detection
succeeds with `mutated = false`. -/
def demoCluster : Cluster Unit String String where
  getPod := fun s ns name =>
    match [webPod, plainPod, dbPod].find? (fun p => p.Namespace == ns && p.Name == name) with
    | some p => ⟨p, none, s⟩
    | none => ⟨⟨"", "", []⟩, some (notFoundErr ("pod " ++ name)), s⟩
  getPSP := fun s name =>
    if name = "restricted" ∨ name = "privileged" then ⟨name, none, s⟩
    else ⟨"", some (notFoundErr ("podsecuritypolicy " ++ name)), s⟩
  listPods := fun s => ⟨[webPod, plainPod, dbPod], none, s⟩
  IsPodBeingMutatedByPSP := fun s _ _ => ⟨(false, ""), none, s⟩
  IsPSPMutating := fun name =>
    if name = "restricted" then (true, ["runAsUser", "fsGroup"], ["seccomp"]) else (false, [], [])
  fmtDiff := id

/-- The cluster `demoCluster` after the policy `restricted` was deleted. -/
def staleCluster : Cluster Unit String String :=
  { demoCluster with
    getPSP := fun s name =>
      if name = "privileged" then ⟨name, none, s⟩
      else ⟨"", some (notFoundErr ("podsecuritypolicy " ++ name)), s⟩ }

/-- The cluster `demoCluster` with a detector that fails on the pod `web`. -/
def brokenCluster : Cluster Unit String String :=
  { demoCluster with
    IsPodBeingMutatedByPSP := fun s pod _ =>
      if pod.Name = "web" then ⟨(false, ""), some detectErr, s⟩ else ⟨(true, "+runAsUser"), none, s⟩ }

/-- The cluster `demoCluster` with a detector that fails on every pod, each time
with the error of the lookup of the pod's policy. -/
def failingCluster : Cluster Unit String String :=
  { demoCluster with
    IsPodBeingMutatedByPSP := fun s pod _ =>
      ⟨(false, ""), some (notFoundErr ("policy of " ++ pod.Name)), s⟩ }

/-- The cluster `brokenCluster` with a detector that succeeds on the pod `web`
and returns the same `mutated` value. -/
def repairedCluster : Cluster Unit String String :=
  { demoCluster with
    IsPodBeingMutatedByPSP := fun s pod _ =>
      if pod.Name = "web" then ⟨(false, ""), none, s⟩ else ⟨(true, "+runAsUser"), none, s⟩ }

/-- A cluster whose API server refuses every request with a status error. -/
def forbiddenCluster : Cluster Unit String String :=
  { demoCluster with
    getPod := fun s _ _ => ⟨⟨"", "", []⟩, some forbiddenErr, s⟩
    getPSP := fun s _ => ⟨"", some forbiddenErr, s⟩
    listPods := fun s => ⟨[], some forbiddenErr, s⟩ }

/-- A cluster that cannot be reached. -/
def unreachableCluster : Cluster Unit String String :=
  { demoCluster with
    getPod := fun s _ _ => ⟨⟨"", "", []⟩, some dialErr, s⟩
    getPSP := fun s _ => ⟨"", some dialErr, s⟩
    listPods := fun s => ⟨[], some dialErr, s⟩ }

/-- A cluster with a state: the number of requests it has served and the names
of the policies it stores.  Every request is counted; a policy is found when its
name is stored. -/
def countingCluster : Cluster (Nat × List String) String String where
  getPod := fun s _ name =>
    ⟨webPod, if name = "web" then none else some (notFoundErr ("pod " ++ name)), (s.1 + 1, s.2)⟩
  getPSP := fun s name =>
    ⟨name, if name ∈ s.2 then none else some (notFoundErr ("podsecuritypolicy " ++ name)),
      (s.1 + 1, s.2)⟩
  listPods := fun s => ⟨[webPod, plainPod, dbPod], none, (s.1 + 1, s.2)⟩
  IsPodBeingMutatedByPSP := fun s _ _ => ⟨(false, ""), none, s⟩
  IsPSPMutating := demoCluster.IsPSPMutating
  fmtDiff := id

/-- A comparison of a pod with its policy: pods bound to `restricted` count as mutated. -/
def demoCompare (_pod : Pod) (psp : String) (_ignore : String) : Bool × String × Option Err :=
  if psp = "restricted" then (true, "+runAsUser", none) else (false, "", none)

section Lemmas

variable {σ PSP Diff : Type}

/-! ## Branch lemmas -/

theorem pspCmd_notFound (W : Cluster σ PSP Diff) (G : Globals) (pspName : String) (s : σ)
    (h : IsNotFound (W.getPSP s pspName).err = true) :
    pspCmd W G pspName s =
      ⟨[.client (pspGetCall pspName), .stdout (pspNotFoundMsg pspName)], .exit 1⟩ := by
  simp [pspCmd, h]

theorem pspCmd_status (W : Cluster σ PSP Diff) (G : Globals) (pspName : String) (s : σ)
    (msg : String) (h : IsNotFound (W.getPSP s pspName).err = false)
    (hs : asStatusError (W.getPSP s pspName).err = some msg) :
    pspCmd W G pspName s =
      ⟨[.client (pspGetCall pspName), .stdout (pspGetErrorMsg pspName msg)], .exit 1⟩ := by
  simp [pspCmd, h, hs]

theorem pspCmd_other (W : Cluster σ PSP Diff) (G : Globals) (pspName : String) (s : σ)
    (e : Err) (h : IsNotFound (W.getPSP s pspName).err = false)
    (hs : asStatusError (W.getPSP s pspName).err = none)
    (he : (W.getPSP s pspName).err = some e) :
    pspCmd W G pspName s =
      ⟨[.client (pspGetCall pspName), .log (errorLog e)], .exit 1⟩ := by
  rw [he] at h hs
  simp [pspCmd, he, h, hs]

theorem pspCmd_ok (W : Cluster σ PSP Diff) (G : Globals) (pspName : String) (s : σ)
    (he : (W.getPSP s pspName).err = none) :
    pspCmd W G pspName s =
      ⟨[.client (pspGetCall pspName),
        .analyze (W.getPSP s pspName).val (W.IsPSPMutating (W.getPSP s pspName).val).1
          (W.IsPSPMutating (W.getPSP s pspName).val).2.1
          (W.IsPSPMutating (W.getPSP s pspName).val).2.2,
        .stdout (pspProfileMsg pspName (W.IsPSPMutating (W.getPSP s pspName).val).2.1
          (W.IsPSPMutating (W.getPSP s pspName).val).2.2)], .returned⟩ := by
  simp [pspCmd, he, IsNotFound, asStatusError]

/-- Every error value falls in exactly one of the three error branches. -/
theorem err_cases (e : Err) :
    IsNotFound (some e) = true ∨
      (IsNotFound (some e) = false ∧ ∃ msg, asStatusError (some e) = some msg) ∨
      (IsNotFound (some e) = false ∧ asStatusError (some e) = none) := by
  cases h : e.isNotFound <;> cases hs : e.status <;> simp [IsNotFound, asStatusError, h, hs]

theorem pspCmd_err_exit (W : Cluster σ PSP Diff) (G : Globals) (pspName : String) (s : σ)
    (e : Err) (he : (W.getPSP s pspName).err = some e) :
    (pspCmd W G pspName s).outcome = .exit 1 ∧
      analyzeCalls (pspCmd W G pspName s).events = [] ∧
      clientCalls (pspCmd W G pspName s).events = [pspGetCall pspName] := by
  rcases err_cases e with h | ⟨h, msg, hs⟩ | ⟨h, hs⟩
  · rw [← he] at h
    simp [pspCmd_notFound W G pspName s h, analyzeCalls, clientCalls]
  · rw [← he] at h hs
    simp [pspCmd_status W G pspName s msg h hs, analyzeCalls, clientCalls]
  · rw [← he] at h hs
    simp [pspCmd_other W G pspName s e h hs he, analyzeCalls, clientCalls]

theorem podCmd_notFound (W : Cluster σ PSP Diff) (G : Globals) (pod : String) (s : σ)
    (h : IsNotFound (W.getPod s G.Namespace pod).err = true) :
    podCmd W G pod s =
      ⟨[.client (podGetCall G.Namespace pod), .stdout (podNotFoundMsg pod G.Namespace)],
        .exit 1⟩ := by
  simp [podCmd, h]

theorem podCmd_status (W : Cluster σ PSP Diff) (G : Globals) (pod : String) (s : σ)
    (msg : String) (h : IsNotFound (W.getPod s G.Namespace pod).err = false)
    (hs : asStatusError (W.getPod s G.Namespace pod).err = some msg) :
    podCmd W G pod s =
      ⟨[.client (podGetCall G.Namespace pod), .stdout (podGetErrorMsg pod G.Namespace msg)],
        .exit 1⟩ := by
  simp [podCmd, h, hs]

theorem podCmd_other (W : Cluster σ PSP Diff) (G : Globals) (pod : String) (s : σ)
    (e : Err) (h : IsNotFound (W.getPod s G.Namespace pod).err = false)
    (hs : asStatusError (W.getPod s G.Namespace pod).err = none)
    (he : (W.getPod s G.Namespace pod).err = some e) :
    podCmd W G pod s =
      ⟨[.client (podGetCall G.Namespace pod), .log (errorLog e)], .exit 1⟩ := by
  rw [he] at h hs
  simp [podCmd, he, h, hs]

theorem podCmd_ok (W : Cluster σ PSP Diff) (G : Globals) (pod : String) (s : σ)
    (he : (W.getPod s G.Namespace pod).err = none) :
    podCmd W G pod s =
      ⟨.client (podGetCall G.Namespace pod) ::
          (podCmdDetect W G (W.getPod s G.Namespace pod).val
            (W.getPod s G.Namespace pod).next).events,
        (podCmdDetect W G (W.getPod s G.Namespace pod).val
          (W.getPod s G.Namespace pod).next).outcome⟩ := by
  simp [podCmd, he, IsNotFound, asStatusError]

theorem podCmd_err_exit (W : Cluster σ PSP Diff) (G : Globals) (pod : String) (s : σ)
    (e : Err) (he : (W.getPod s G.Namespace pod).err = some e) :
    (podCmd W G pod s).outcome = .exit 1 ∧
      detectCalls (podCmd W G pod s).events = [] ∧
      analyzeCalls (podCmd W G pod s).events = [] ∧
      clientCalls (podCmd W G pod s).events = [podGetCall G.Namespace pod] := by
  rcases err_cases e with h | ⟨h, msg, hs⟩ | ⟨h, hs⟩
  · rw [← he] at h
    simp [podCmd_notFound W G pod s h, analyzeCalls, clientCalls, detectCalls]
  · rw [← he] at h hs
    simp [podCmd_status W G pod s msg h hs, analyzeCalls, clientCalls, detectCalls]
  · rw [← he] at h hs
    simp [podCmd_other W G pod s e h hs he, analyzeCalls, clientCalls, detectCalls]

theorem podCmdDetect_err (W : Cluster σ PSP Diff) (G : Globals) (podObj : Pod) (s : σ)
    (e : Err) (he : (W.IsPodBeingMutatedByPSP s podObj G.ContainersToIgnore).err = some e) :
    podCmdDetect W G podObj s =
      ⟨[.detect podObj G.ContainersToIgnore
          (W.IsPodBeingMutatedByPSP s podObj G.ContainersToIgnore).val.1
          (W.IsPodBeingMutatedByPSP s podObj G.ContainersToIgnore).val.2 (some e),
        .log (errorLog e)], .exit 1⟩ := by
  simp [podCmdDetect, he]

theorem podCmdDetect_unbound (W : Cluster σ PSP Diff) (G : Globals) (podObj : Pod) (s : σ)
    (he : (W.IsPodBeingMutatedByPSP s podObj G.ContainersToIgnore).err = none)
    (hp : podObj.psp = none) :
    podCmdDetect W G podObj s =
      ⟨[.detect podObj G.ContainersToIgnore
          (W.IsPodBeingMutatedByPSP s podObj G.ContainersToIgnore).val.1
          (W.IsPodBeingMutatedByPSP s podObj G.ContainersToIgnore).val.2 none], .returned⟩ := by
  simp [podCmdDetect, he, hp]

theorem podCmdDetect_bound (W : Cluster σ PSP Diff) (G : Globals) (podObj : Pod) (s : σ)
    (pspName : String)
    (he : (W.IsPodBeingMutatedByPSP s podObj G.ContainersToIgnore).err = none)
    (hp : podObj.psp = some pspName) :
    podCmdDetect W G podObj s =
      ⟨.detect podObj G.ContainersToIgnore
          (W.IsPodBeingMutatedByPSP s podObj G.ContainersToIgnore).val.1
          (W.IsPodBeingMutatedByPSP s podObj G.ContainersToIgnore).val.2 none ::
          (podCmdPolicy W podObj pspName
            (W.IsPodBeingMutatedByPSP s podObj G.ContainersToIgnore).val.1
            (W.IsPodBeingMutatedByPSP s podObj G.ContainersToIgnore).val.2
            (W.IsPodBeingMutatedByPSP s podObj G.ContainersToIgnore).next).events,
        (podCmdPolicy W podObj pspName
          (W.IsPodBeingMutatedByPSP s podObj G.ContainersToIgnore).val.1
          (W.IsPodBeingMutatedByPSP s podObj G.ContainersToIgnore).val.2
          (W.IsPodBeingMutatedByPSP s podObj G.ContainersToIgnore).next).outcome⟩ := by
  simp [podCmdDetect, he, hp]

theorem podCmdPolicy_notFound (W : Cluster σ PSP Diff) (podObj : Pod) (pspName : String)
    (mutated : Bool) (diff : Diff) (s : σ) (h : IsNotFound (W.getPSP s pspName).err = true) :
    podCmdPolicy W podObj pspName mutated diff s =
      ⟨[.stdout (podMutatedMsg podObj.Name pspName mutated (W.fmtDiff diff)),
        .client (pspGetCall pspName), .stdout (pspNotFoundMsg pspName)], .returned⟩ := by
  simp [podCmdPolicy, h]

theorem podCmdPolicy_status (W : Cluster σ PSP Diff) (podObj : Pod) (pspName : String)
    (mutated : Bool) (diff : Diff) (s : σ) (msg : String)
    (h : IsNotFound (W.getPSP s pspName).err = false)
    (hs : asStatusError (W.getPSP s pspName).err = some msg) :
    podCmdPolicy W podObj pspName mutated diff s =
      ⟨[.stdout (podMutatedMsg podObj.Name pspName mutated (W.fmtDiff diff)),
        .client (pspGetCall pspName), .stdout (pspGetErrorMsg pspName msg)], .returned⟩ := by
  simp [podCmdPolicy, h, hs]

theorem podCmdPolicy_other (W : Cluster σ PSP Diff) (podObj : Pod) (pspName : String)
    (mutated : Bool) (diff : Diff) (s : σ) (e : Err)
    (h : IsNotFound (W.getPSP s pspName).err = false)
    (hs : asStatusError (W.getPSP s pspName).err = none)
    (he : (W.getPSP s pspName).err = some e) :
    podCmdPolicy W podObj pspName mutated diff s =
      ⟨[.stdout (podMutatedMsg podObj.Name pspName mutated (W.fmtDiff diff)),
        .client (pspGetCall pspName)], .panicked e.text⟩ := by
  rw [he] at h hs
  simp [podCmdPolicy, he, h, hs]

theorem podCmdPolicy_ok (W : Cluster σ PSP Diff) (podObj : Pod) (pspName : String)
    (mutated : Bool) (diff : Diff) (s : σ) (he : (W.getPSP s pspName).err = none) :
    podCmdPolicy W podObj pspName mutated diff s =
      ⟨[.stdout (podMutatedMsg podObj.Name pspName mutated (W.fmtDiff diff)),
        .client (pspGetCall pspName),
        .analyze (W.getPSP s pspName).val (W.IsPSPMutating (W.getPSP s pspName).val).1
          (W.IsPSPMutating (W.getPSP s pspName).val).2.1
          (W.IsPSPMutating (W.getPSP s pspName).val).2.2,
        .stdout (pspProfileMsg pspName (W.IsPSPMutating (W.getPSP s pspName).val).2.1
          (W.IsPSPMutating (W.getPSP s pspName).val).2.2)], .returned⟩ := by
  simp [podCmdPolicy, he, IsNotFound, asStatusError]

/-- The policy block always prints the report line first and issues the policy
lookup, never calls the detector, and hands to the analyzer nothing but the
object that lookup returned. -/
theorem podCmdPolicy_shape (W : Cluster σ PSP Diff) (podObj : Pod) (pspName : String)
    (mutated : Bool) (diff : Diff) (s : σ) :
    podMutatedMsg podObj.Name pspName mutated (W.fmtDiff diff) ∈
        stdoutLines (podCmdPolicy W podObj pspName mutated diff s).events ∧
      clientCalls (podCmdPolicy W podObj pspName mutated diff s).events = [pspGetCall pspName] ∧
      detectCalls (podCmdPolicy W podObj pspName mutated diff s).events = [] ∧
      (∀ p m f a, Event.analyze p m f a ∈ (podCmdPolicy W podObj pspName mutated diff s).events →
          p = (W.getPSP s pspName).val ∧ (m, f, a) = W.IsPSPMutating p) := by
  cases he : (W.getPSP s pspName).err with
  | none =>
    rw [podCmdPolicy_ok W podObj pspName mutated diff s he]
    refine ⟨by simp [stdoutLines], by simp [clientCalls], by simp [detectCalls], ?_⟩
    intro p m f a hmem
    simp at hmem
    obtain ⟨rfl, rfl, rfl, rfl⟩ := hmem
    simp
  | some e =>
    rcases err_cases e with h | ⟨h, msg, hs⟩ | ⟨h, hs⟩
    · rw [← he] at h
      rw [podCmdPolicy_notFound W podObj pspName mutated diff s h]
      simp [stdoutLines, clientCalls, detectCalls]
    · rw [← he] at h hs
      rw [podCmdPolicy_status W podObj pspName mutated diff s msg h hs]
      simp [stdoutLines, clientCalls, detectCalls]
    · rw [← he] at h hs
      rw [podCmdPolicy_other W podObj pspName mutated diff s e h hs he]
      simp [stdoutLines, clientCalls, detectCalls]

end Lemmas

section LoopLemmas

variable {σ PSP Diff : Type}

/-! ## The loop of `mutating pods` -/

theorem detections_pods (W : Cluster σ PSP Diff) (s : σ) (pods : List Pod) :
    (detections W s pods).map (fun c => c.pod) = pods := by
  induction pods generalizing s with
  | nil => rfl
  | cons pod rest ih => simp [detections, ih]

theorem detections_length (W : Cluster σ PSP Diff) (s : σ) (pods : List Pod) :
    (detections W s pods).length = pods.length := by
  induction pods generalizing s with
  | nil => rfl
  | cons pod rest ih => simp [detections, ih]

theorem detections_ignore (W : Cluster σ PSP Diff) (s : σ) (pods : List Pod) :
    ∀ c ∈ detections W s pods, c.containersToIgnore = "" := by
  induction pods generalizing s with
  | nil => simp [detections]
  | cons pod rest ih =>
    intro c hc
    simp only [detections, List.mem_cons] at hc
    rcases hc with rfl | hc
    · rfl
    · exact ih _ c hc

theorem podsLoop_unbound (W : Cluster σ PSP Diff) (s : σ) (pod : Pod) (rest : List Pod)
    (h : pod.psp = none) : podsLoop W s (pod :: rest) = podsLoop W s rest := by
  simp [podsLoop, h]

theorem podsLoop_bound (W : Cluster σ PSP Diff) (s : σ) (pod : Pod) (rest : List Pod)
    (pspName : String) (h : pod.psp = some pspName) :
    podsLoop W s (pod :: rest) =
      [Event.detect pod "" (W.IsPodBeingMutatedByPSP s pod "").val.1
          (W.IsPodBeingMutatedByPSP s pod "").val.2 (W.IsPodBeingMutatedByPSP s pod "").err]
        ++ (match (W.IsPodBeingMutatedByPSP s pod "").err with
            | some e => [Event.log (detectErrorLog e)]
            | none => [])
        ++ [Event.tableAppend [pod.Name, pod.Namespace,
              FormatBool (W.IsPodBeingMutatedByPSP s pod "").val.1, pspName]]
        ++ podsLoop W (W.IsPodBeingMutatedByPSP s pod "").next rest := by
  simp [podsLoop, h]

theorem podsLoop_detectCalls (W : Cluster σ PSP Diff) (s : σ) (pods : List Pod) :
    detectCalls (podsLoop W s pods) = detections W s (annotatedPods pods) := by
  induction pods generalizing s with
  | nil => rfl
  | cons pod rest ih =>
    cases h : pod.psp with
    | none =>
      rw [podsLoop_unbound W s pod rest h, ih]
      simp [annotatedPods, h]
    | some pspName =>
      rw [podsLoop_bound W s pod rest pspName h]
      have ih2 := ih (W.IsPodBeingMutatedByPSP s pod "").next
      cases he : (W.IsPodBeingMutatedByPSP s pod "").err <;>
        simp_all [detectCalls, annotatedPods, detections, List.filterMap_append]

theorem podsLoop_tableRows (W : Cluster σ PSP Diff) (s : σ) (pods : List Pod) :
    tableRows (podsLoop W s pods) = (detections W s (annotatedPods pods)).map rowOf := by
  induction pods generalizing s with
  | nil => rfl
  | cons pod rest ih =>
    cases h : pod.psp with
    | none =>
      rw [podsLoop_unbound W s pod rest h, ih]
      simp [annotatedPods, h]
    | some pspName =>
      rw [podsLoop_bound W s pod rest pspName h]
      have ih2 := ih (W.IsPodBeingMutatedByPSP s pod "").next
      cases he : (W.IsPodBeingMutatedByPSP s pod "").err <;>
        simp_all [tableRows, annotatedPods, detections, List.filterMap_append, rowOf]

theorem podsLoop_logLines (W : Cluster σ PSP Diff) (s : σ) (pods : List Pod) :
    logLines (podsLoop W s pods) = (detections W s (annotatedPods pods)).filterMap logOf := by
  induction pods generalizing s with
  | nil => rfl
  | cons pod rest ih =>
    cases h : pod.psp with
    | none =>
      rw [podsLoop_unbound W s pod rest h, ih]
      simp [annotatedPods, h]
    | some pspName =>
      rw [podsLoop_bound W s pod rest pspName h]
      have ih2 := ih (W.IsPodBeingMutatedByPSP s pod "").next
      cases he : (W.IsPodBeingMutatedByPSP s pod "").err <;>
        simp_all [logLines, annotatedPods, detections, List.filterMap_append, logOf]

/-- The loop prints nothing to stdout, issues no request on the client itself,
never calls the analyzer and does not render. -/
theorem podsLoop_quiet (W : Cluster σ PSP Diff) (s : σ) (pods : List Pod) :
    stdoutLines (podsLoop W s pods) = [] ∧ clientCalls (podsLoop W s pods) = [] ∧
      analyzeCalls (podsLoop W s pods) = [] ∧ rendered (podsLoop W s pods) = false := by
  induction pods generalizing s with
  | nil => simp [podsLoop, stdoutLines, clientCalls, analyzeCalls, rendered]
  | cons pod rest ih =>
    cases h : pod.psp with
    | none =>
      rw [podsLoop_unbound W s pod rest h]
      exact ih s
    | some pspName =>
      rw [podsLoop_bound W s pod rest pspName h]
      have ih2 := ih (W.IsPodBeingMutatedByPSP s pod "").next
      simp only [stdoutLines, clientCalls, analyzeCalls, rendered] at ih2 ⊢
      cases he : (W.IsPodBeingMutatedByPSP s pod "").err <;>
        simp_all [List.filterMap_append]

end LoopLemmas

section PodsLemmas

variable {σ PSP Diff : Type}

theorem podsCmd_err (W : Cluster σ PSP Diff) (G : Globals) (s : σ) (e : Err)
    (h : (W.listPods s).err = some e) :
    podsCmd W G s =
      ⟨[.tableHeader tableHeaderCols, .client podListCall, .log (getPodsErrorLog e)],
        .exit 1⟩ := by
  simp [podsCmd, GetPods, h]

theorem podsCmd_ok (W : Cluster σ PSP Diff) (G : Globals) (s : σ)
    (h : (W.listPods s).err = none) :
    podsCmd W G s =
      ⟨[.tableHeader tableHeaderCols, .client podListCall,
          .stdout (podCountMsg (W.listPods s).val.length)]
          ++ podsLoop W (W.listPods s).next (W.listPods s).val ++ [.tableRender],
        .returned⟩ := by
  simp [podsCmd, GetPods, h]

theorem detections_withoutDetectorErrors (W : Cluster σ PSP Diff) (s : σ) (pods : List Pod) :
    (detections W.withoutDetectorErrors s pods).map rowOf = (detections W s pods).map rowOf := by
  induction pods generalizing s with
  | nil => rfl
  | cons pod rest ih =>
    simp [detections, rowOf, Cluster.withoutDetectorErrors] at ih ⊢
    exact ih _

end PodsLemmas

section SingleLemmas

variable {σ PSP Diff : Type}

/-! ## Consequences for the single-item commands -/

theorem mem_analyzeCalls (t : List (Event PSP Diff)) (p : PSP) (m : Bool) (f a : List String)
    (h : Event.analyze p m f a ∈ t) : p ∈ analyzeCalls t := by
  unfold analyzeCalls
  rw [List.mem_filterMap]
  exact ⟨_, h, rfl⟩

/-- After a successful pod lookup the detector is called exactly once, on the
pod returned, with the caller's ignore string. -/
theorem podCmd_detectCalls_ok (W : Cluster σ PSP Diff) (G : Globals) (pod : String) (s : σ)
    (he : (W.getPod s G.Namespace pod).err = none) :
    detectCalls (podCmd W G pod s).events =
      [⟨(W.getPod s G.Namespace pod).val, G.ContainersToIgnore,
        (W.IsPodBeingMutatedByPSP (W.getPod s G.Namespace pod).next
          (W.getPod s G.Namespace pod).val G.ContainersToIgnore).val.1,
        (W.IsPodBeingMutatedByPSP (W.getPod s G.Namespace pod).next
          (W.getPod s G.Namespace pod).val G.ContainersToIgnore).val.2,
        (W.IsPodBeingMutatedByPSP (W.getPod s G.Namespace pod).next
          (W.getPod s G.Namespace pod).val G.ContainersToIgnore).err⟩] := by
  rw [podCmd_ok W G pod s he]
  cases hd : (W.IsPodBeingMutatedByPSP (W.getPod s G.Namespace pod).next
      (W.getPod s G.Namespace pod).val G.ContainersToIgnore).err with
  | some e =>
    rw [podCmdDetect_err W G _ _ e hd]
    simp [detectCalls]
  | none =>
    cases hp : (W.getPod s G.Namespace pod).val.psp with
    | none =>
      rw [podCmdDetect_unbound W G _ _ hd hp]
      simp [detectCalls]
    | some pspName =>
      rw [podCmdDetect_bound W G _ _ pspName hd hp]
      have := (podCmdPolicy_shape W (W.getPod s G.Namespace pod).val pspName
        (W.IsPodBeingMutatedByPSP (W.getPod s G.Namespace pod).next
          (W.getPod s G.Namespace pod).val G.ContainersToIgnore).val.1
        (W.IsPodBeingMutatedByPSP (W.getPod s G.Namespace pod).next
          (W.getPod s G.Namespace pod).val G.ContainersToIgnore).val.2
        (W.IsPodBeingMutatedByPSP (W.getPod s G.Namespace pod).next
          (W.getPod s G.Namespace pod).val G.ContainersToIgnore).next).2.2.1
      simp only [detectCalls] at this
      simp [detectCalls, this]

/-- Every analyzer event of a run of `mutating pod` records the analyzer's
answer on the policy object it names. -/
theorem podCmd_analyze_mem (W : Cluster σ PSP Diff) (G : Globals) (pod : String) (s : σ)
    (p : PSP) (m : Bool) (f a : List String)
    (h : Event.analyze p m f a ∈ (podCmd W G pod s).events) :
    (m, f, a) = W.IsPSPMutating p := by
  cases he : (W.getPod s G.Namespace pod).err with
  | some e =>
    have := (podCmd_err_exit W G pod s e he).2.2.1
    have hm := mem_analyzeCalls _ p m f a h
    rw [this] at hm
    simp at hm
  | none =>
    rw [podCmd_ok W G pod s he] at h
    cases hd : (W.IsPodBeingMutatedByPSP (W.getPod s G.Namespace pod).next
        (W.getPod s G.Namespace pod).val G.ContainersToIgnore).err with
    | some e =>
      rw [podCmdDetect_err W G _ _ e hd] at h
      simp at h
    | none =>
      cases hp : (W.getPod s G.Namespace pod).val.psp with
      | none =>
        rw [podCmdDetect_unbound W G _ _ hd hp] at h
        simp at h
      | some pspName =>
        rw [podCmdDetect_bound W G _ _ pspName hd hp] at h
        simp only [List.mem_cons, reduceCtorEq, false_or] at h
        exact ((podCmdPolicy_shape W _ pspName _ _ _).2.2.2 p m f a h).2

/-- The requests a run of `mutating pod` issues on the client: the pod Get,
and after it at most the Get of the policy named by the annotation. -/
theorem podCmd_clientCalls (W : Cluster σ PSP Diff) (G : Globals) (pod : String) (s : σ) :
    clientCalls (podCmd W G pod s).events = [podGetCall G.Namespace pod] ∨
      ∃ pspName, (W.getPod s G.Namespace pod).val.psp = some pspName ∧
        clientCalls (podCmd W G pod s).events =
          [podGetCall G.Namespace pod, pspGetCall pspName] := by
  cases he : (W.getPod s G.Namespace pod).err with
  | some e => exact Or.inl (podCmd_err_exit W G pod s e he).2.2.2
  | none =>
    rw [podCmd_ok W G pod s he]
    cases hd : (W.IsPodBeingMutatedByPSP (W.getPod s G.Namespace pod).next
        (W.getPod s G.Namespace pod).val G.ContainersToIgnore).err with
    | some e =>
      rw [podCmdDetect_err W G _ _ e hd]
      simp [clientCalls]
    | none =>
      cases hp : (W.getPod s G.Namespace pod).val.psp with
      | none =>
        rw [podCmdDetect_unbound W G _ _ hd hp]
        simp [clientCalls]
      | some pspName =>
        rw [podCmdDetect_bound W G _ _ pspName hd hp]
        have := (podCmdPolicy_shape W (W.getPod s G.Namespace pod).val pspName
          (W.IsPodBeingMutatedByPSP (W.getPod s G.Namespace pod).next
            (W.getPod s G.Namespace pod).val G.ContainersToIgnore).val.1
          (W.IsPodBeingMutatedByPSP (W.getPod s G.Namespace pod).next
            (W.getPod s G.Namespace pod).val G.ContainersToIgnore).val.2
          (W.IsPodBeingMutatedByPSP (W.getPod s G.Namespace pod).next
            (W.getPod s G.Namespace pod).val G.ContainersToIgnore).next).2.1
        simp only [clientCalls] at this
        simp [clientCalls, this]

/-- The two messages of the pod lookup differ whatever their arguments. -/
theorem podNotFoundMsg_ne (pod ns pod2 ns2 msg : String) :
    podNotFoundMsg pod ns ≠ podGetErrorMsg pod2 ns2 msg := by
  intro h
  have := congrArg String.data h
  simp [podNotFoundMsg, podGetErrorMsg, String.data_append] at this

/-- The two messages of the policy lookup differ whatever their arguments. -/
theorem pspNotFoundMsg_ne (n n2 msg : String) :
    pspNotFoundMsg n ≠ pspGetErrorMsg n2 msg := by
  intro h
  have := congrArg String.data h
  simp [pspNotFoundMsg, pspGetErrorMsg, String.data_append] at this

/-- The status message stands unchanged inside the pod lookup error line. -/
theorem podGetErrorMsg_holds (pod ns msg : String) :
    msg.data <:+: (podGetErrorMsg pod ns msg).data :=
  ⟨("Error getting pod " ++ pod ++ " in namespace " ++ ns ++ ": ").data, "\n".data, by
    simp [podGetErrorMsg, String.data_append]⟩

/-- The status message stands unchanged inside the policy lookup error line. -/
theorem pspGetErrorMsg_holds (n msg : String) :
    msg.data <:+: (pspGetErrorMsg n msg).data :=
  ⟨("Error getting PodSecurityPolicy " ++ n ++ ": ").data, "\n".data, by
    simp [pspGetErrorMsg, String.data_append]⟩

end SingleLemmas

section FrameLemmas

variable {σ PSP Diff : Type}

/-! ## Calls made by `mutating psp` and `mutating pods` -/

theorem pspCmd_clientCalls (W : Cluster σ PSP Diff) (G : Globals) (pspName : String) (s : σ) :
    clientCalls (pspCmd W G pspName s).events = [pspGetCall pspName] := by
  cases he : (W.getPSP s pspName).err with
  | some e => exact (pspCmd_err_exit W G pspName s e he).2.2
  | none =>
    rw [pspCmd_ok W G pspName s he]
    simp [clientCalls]

theorem pspCmd_detectCalls (W : Cluster σ PSP Diff) (G : Globals) (pspName : String) (s : σ) :
    detectCalls (pspCmd W G pspName s).events = [] := by
  cases he : (W.getPSP s pspName).err with
  | none =>
    rw [pspCmd_ok W G pspName s he]
    simp [detectCalls]
  | some e =>
    rcases err_cases e with h | ⟨h, msg, hs⟩ | ⟨h, hs⟩
    · rw [← he] at h
      simp [pspCmd_notFound W G pspName s h, detectCalls]
    · rw [← he] at h hs
      simp [pspCmd_status W G pspName s msg h hs, detectCalls]
    · rw [← he] at h hs
      simp [pspCmd_other W G pspName s e h hs he, detectCalls]

theorem pspCmd_analyze_mem (W : Cluster σ PSP Diff) (G : Globals) (pspName : String) (s : σ)
    (p : PSP) (m : Bool) (f a : List String)
    (h : Event.analyze p m f a ∈ (pspCmd W G pspName s).events) :
    (m, f, a) = W.IsPSPMutating p := by
  cases he : (W.getPSP s pspName).err with
  | some e =>
    have hm := mem_analyzeCalls _ p m f a h
    rw [(pspCmd_err_exit W G pspName s e he).2.1] at hm
    simp at hm
  | none =>
    rw [pspCmd_ok W G pspName s he] at h
    simp at h
    obtain ⟨rfl, rfl, rfl, rfl⟩ := h
    rfl

theorem podsCmd_clientCalls (W : Cluster σ PSP Diff) (G : Globals) (s : σ) :
    clientCalls (podsCmd W G s).events = [podListCall] := by
  cases h : (W.listPods s).err with
  | some e =>
    rw [podsCmd_err W G s e h]
    simp [clientCalls]
  | none =>
    rw [podsCmd_ok W G s h]
    have := (podsLoop_quiet W (W.listPods s).next (W.listPods s).val).2.1
    simp only [clientCalls] at this
    simp [clientCalls, List.filterMap_append, this]

theorem podsCmd_analyzeCalls (W : Cluster σ PSP Diff) (G : Globals) (s : σ) :
    analyzeCalls (podsCmd W G s).events = [] := by
  cases h : (W.listPods s).err with
  | some e =>
    rw [podsCmd_err W G s e h]
    simp [analyzeCalls]
  | none =>
    rw [podsCmd_ok W G s h]
    have := (podsLoop_quiet W (W.listPods s).next (W.listPods s).val).2.2.1
    simp only [analyzeCalls] at this
    simp [analyzeCalls, List.filterMap_append, this]

theorem podsCmd_detect_ignore (W : Cluster σ PSP Diff) (G : Globals) (s : σ) :
    ∀ c ∈ detectCalls (podsCmd W G s).events, c.containersToIgnore = "" := by
  cases h : (W.listPods s).err with
  | some e =>
    rw [podsCmd_err W G s e h]
    simp [detectCalls]
  | none =>
    have hd : detectCalls (podsCmd W G s).events =
        detections W (W.listPods s).next (annotatedPods (W.listPods s).val) := by
      rw [podsCmd_ok W G s h]
      simp [detectCalls, List.filterMap_append]
      exact podsLoop_detectCalls W _ _
    rw [hd]
    exact detections_ignore W _ _

/-- After a successful pod lookup and a successful detection, `mutating pod`
either prints the report line of an annotated pod or, for a pod without the
annotation, prints nothing and returns. -/
theorem podCmd_ok_report (W : Cluster σ PSP Diff) (G : Globals) (pod : String) (s : σ)
    (he : (W.getPod s G.Namespace pod).err = none)
    (hd : (W.IsPodBeingMutatedByPSP (W.getPod s G.Namespace pod).next
      (W.getPod s G.Namespace pod).val G.ContainersToIgnore).err = none) :
    (∃ pspName, (W.getPod s G.Namespace pod).val.psp = some pspName ∧
      podMutatedMsg (W.getPod s G.Namespace pod).val.Name pspName
        (W.IsPodBeingMutatedByPSP (W.getPod s G.Namespace pod).next
          (W.getPod s G.Namespace pod).val G.ContainersToIgnore).val.1
        (W.fmtDiff (W.IsPodBeingMutatedByPSP (W.getPod s G.Namespace pod).next
          (W.getPod s G.Namespace pod).val G.ContainersToIgnore).val.2) ∈
        stdoutLines (podCmd W G pod s).events) ∨
    ((W.getPod s G.Namespace pod).val.psp = none ∧
      stdoutLines (podCmd W G pod s).events = [] ∧
      logLines (podCmd W G pod s).events = [] ∧
      (podCmd W G pod s).outcome = .returned) := by
  rw [podCmd_ok W G pod s he]
  cases hp : (W.getPod s G.Namespace pod).val.psp with
  | none =>
    rw [podCmdDetect_unbound W G _ _ hd hp]
    exact Or.inr ⟨rfl, rfl, rfl, rfl⟩
  | some pspName =>
    rw [podCmdDetect_bound W G _ _ pspName hd hp]
    refine Or.inl ⟨pspName, rfl, ?_⟩
    have := (podCmdPolicy_shape W (W.getPod s G.Namespace pod).val pspName
      (W.IsPodBeingMutatedByPSP (W.getPod s G.Namespace pod).next
        (W.getPod s G.Namespace pod).val G.ContainersToIgnore).val.1
      (W.IsPodBeingMutatedByPSP (W.getPod s G.Namespace pod).next
        (W.getPod s G.Namespace pod).val G.ContainersToIgnore).val.2
      (W.IsPodBeingMutatedByPSP (W.getPod s G.Namespace pod).next
        (W.getPod s G.Namespace pod).val G.ContainersToIgnore).next).1
    simp only [stdoutLines] at this ⊢
    simpa using this

/-- In `mutating pod` the ignore string is used for nothing but the detector
call: two runs whose detector answers alike print, log, request and end alike. -/
theorem podCmd_ignore_only_detector (W : Cluster σ PSP Diff) (G : Globals) (pod : String)
    (s : σ) (ignore : String)
    (h : W.IsPodBeingMutatedByPSP (W.getPod s G.Namespace pod).next
        (W.getPod s G.Namespace pod).val ignore =
      W.IsPodBeingMutatedByPSP (W.getPod s G.Namespace pod).next
        (W.getPod s G.Namespace pod).val G.ContainersToIgnore) :
    stdoutLines (podCmd W ⟨G.Namespace, ignore⟩ pod s).events =
        stdoutLines (podCmd W G pod s).events ∧
      logLines (podCmd W ⟨G.Namespace, ignore⟩ pod s).events =
        logLines (podCmd W G pod s).events ∧
      clientCalls (podCmd W ⟨G.Namespace, ignore⟩ pod s).events =
        clientCalls (podCmd W G pod s).events ∧
      analyzeCalls (podCmd W ⟨G.Namespace, ignore⟩ pod s).events =
        analyzeCalls (podCmd W G pod s).events ∧
      (podCmd W ⟨G.Namespace, ignore⟩ pod s).outcome = (podCmd W G pod s).outcome := by
  cases he : (W.getPod s G.Namespace pod).err with
  | some e =>
    have h1 : podCmd W ⟨G.Namespace, ignore⟩ pod s = podCmd W G pod s := by
      simp [podCmd, he]
    rw [h1]
    exact ⟨rfl, rfl, rfl, rfl, rfl⟩
  | none =>
    have he2 : (W.getPod s (Globals.mk G.Namespace ignore).Namespace pod).err = none := he
    rw [podCmd_ok W G pod s he, podCmd_ok W ⟨G.Namespace, ignore⟩ pod s he2]
    simp only [podCmdDetect, h]
    cases (W.IsPodBeingMutatedByPSP (W.getPod s G.Namespace pod).next
        (W.getPod s G.Namespace pod).val G.ContainersToIgnore).err with
    | some e => simp [stdoutLines, logLines, clientCalls, analyzeCalls]
    | none =>
      cases (W.getPod s G.Namespace pod).val.psp with
      | none => simp [stdoutLines, logLines, clientCalls, analyzeCalls]
      | some pspName => simp [stdoutLines, logLines, clientCalls, analyzeCalls]

end FrameLemmas

section FrameStateLemmas

variable {σ PSP Diff κ : Type}

/-! ## Runs with their final state -/

theorem pspCmdStep_fst (W : Cluster σ PSP Diff) (G : Globals) (pspName : String) (s : σ) :
    (pspCmdStep W G pspName s).1 = pspCmd W G pspName s := by
  cases he : (W.getPSP s pspName).err with
  | none => simp [pspCmdStep, pspCmd, he, IsNotFound, asStatusError]
  | some e =>
    cases hn : e.isNotFound <;> cases hs : e.status <;>
      simp [pspCmdStep, pspCmd, he, IsNotFound, asStatusError, hn, hs]

theorem pspCmdStep_snd (W : Cluster σ PSP Diff) (G : Globals) (pspName : String) (s : σ) :
    (pspCmdStep W G pspName s).2 = (W.getPSP s pspName).next := by
  cases he : (W.getPSP s pspName).err with
  | none => simp [pspCmdStep, he, IsNotFound, asStatusError]
  | some e =>
    cases hn : e.isNotFound <;> cases hs : e.status <;>
      simp [pspCmdStep, he, IsNotFound, asStatusError, hn, hs]

theorem podCmdPolicyStep_fst (W : Cluster σ PSP Diff) (podObj : Pod) (pspName : String)
    (mutated : Bool) (diff : Diff) (s : σ) :
    (podCmdPolicyStep W podObj pspName mutated diff s).1 =
      podCmdPolicy W podObj pspName mutated diff s := by
  cases he : (W.getPSP s pspName).err with
  | none => simp [podCmdPolicyStep, podCmdPolicy, he, IsNotFound, asStatusError]
  | some e =>
    cases hn : e.isNotFound <;> cases hs : e.status <;>
      simp [podCmdPolicyStep, podCmdPolicy, he, IsNotFound, asStatusError, hn, hs]

theorem podCmdPolicyStep_snd (W : Cluster σ PSP Diff) (podObj : Pod) (pspName : String)
    (mutated : Bool) (diff : Diff) (s : σ) :
    (podCmdPolicyStep W podObj pspName mutated diff s).2 = (W.getPSP s pspName).next := by
  cases he : (W.getPSP s pspName).err with
  | none => simp [podCmdPolicyStep, he, IsNotFound, asStatusError]
  | some e =>
    cases hn : e.isNotFound <;> cases hs : e.status <;>
      simp [podCmdPolicyStep, he, IsNotFound, asStatusError, hn, hs]

theorem podCmdDetectStep_fst (W : Cluster σ PSP Diff) (G : Globals) (podObj : Pod) (s : σ) :
    (podCmdDetectStep W G podObj s).1 = podCmdDetect W G podObj s := by
  cases hd : (W.IsPodBeingMutatedByPSP s podObj G.ContainersToIgnore).err with
  | some e => simp [podCmdDetectStep, podCmdDetect, hd]
  | none =>
    cases hp : podObj.psp with
    | none => simp [podCmdDetectStep, podCmdDetect, hd, hp]
    | some pspName => simp [podCmdDetectStep, podCmdDetect, hd, hp, podCmdPolicyStep_fst]

theorem podCmdStep_fst (W : Cluster σ PSP Diff) (G : Globals) (pod : String) (s : σ) :
    (podCmdStep W G pod s).1 = podCmd W G pod s := by
  cases he : (W.getPod s G.Namespace pod).err with
  | none => simp [podCmdStep, podCmd, he, IsNotFound, asStatusError, podCmdDetectStep_fst]
  | some e =>
    cases hn : e.isNotFound <;> cases hs : e.status <;>
      simp [podCmdStep, podCmd, he, IsNotFound, asStatusError, hn, hs]

theorem podsLoopStep_fst (W : Cluster σ PSP Diff) (s : σ) (pods : List Pod) :
    (podsLoopStep W s pods).1 = podsLoop W s pods := by
  induction pods generalizing s with
  | nil => rfl
  | cons pod rest ih =>
    cases hp : pod.psp with
    | none => simp [podsLoopStep, podsLoop, hp, ih]
    | some pspName => simp [podsLoopStep, podsLoop, hp, ih]

theorem podsCmdStep_fst (W : Cluster σ PSP Diff) (G : Globals) (s : σ) :
    (podsCmdStep W G s).1 = podsCmd W G s := by
  cases h : (W.listPods s).err with
  | none => simp [podsCmdStep, podsCmd, GetPods, h, podsLoopStep_fst]
  | some e => simp [podsCmdStep, podsCmd, GetPods, h]

/-! ## The stored objects after a run -/

theorem podCmdDetectStep_objects (W : Cluster σ PSP Diff) (objects : σ → κ)
    (hread : ReadsPreserve W objects)
    (hdet : ∀ s pod ignore, objects (W.IsPodBeingMutatedByPSP s pod ignore).next = objects s)
    (G : Globals) (podObj : Pod) (s : σ) :
    objects (podCmdDetectStep W G podObj s).2 = objects s := by
  cases hd : (W.IsPodBeingMutatedByPSP s podObj G.ContainersToIgnore).err with
  | some e =>
    simp only [podCmdDetectStep, hd]
    exact hdet s podObj _
  | none =>
    cases hp : podObj.psp with
    | none =>
      simp only [podCmdDetectStep, hd, hp]
      exact hdet s podObj _
    | some pspName =>
      simp only [podCmdDetectStep, hd, hp, podCmdPolicyStep_snd]
      rw [hread.2.1, hdet]

theorem podCmdStep_objects (W : Cluster σ PSP Diff) (objects : σ → κ)
    (hread : ReadsPreserve W objects)
    (hdet : ∀ s pod ignore, objects (W.IsPodBeingMutatedByPSP s pod ignore).next = objects s)
    (G : Globals) (pod : String) (s : σ) :
    objects (podCmdStep W G pod s).2 = objects s := by
  cases he : (W.getPod s G.Namespace pod).err with
  | none =>
    simp only [podCmdStep, he, IsNotFound, asStatusError]
    simp only [Bool.false_eq_true, if_false]
    rw [podCmdDetectStep_objects W objects hread hdet, hread.1]
  | some e =>
    have h : (podCmdStep W G pod s).2 = (W.getPod s G.Namespace pod).next := by
      cases hn : e.isNotFound <;> cases hs : e.status <;>
        simp [podCmdStep, he, IsNotFound, asStatusError, hn, hs]
    rw [h, hread.1]

theorem podsLoopStep_objects (W : Cluster σ PSP Diff) (objects : σ → κ)
    (hdet : ∀ s pod ignore, objects (W.IsPodBeingMutatedByPSP s pod ignore).next = objects s)
    (s : σ) (pods : List Pod) :
    objects (podsLoopStep W s pods).2 = objects s := by
  induction pods generalizing s with
  | nil => rfl
  | cons pod rest ih =>
    cases hp : pod.psp with
    | none =>
      simp only [podsLoopStep, hp]
      exact ih s
    | some pspName =>
      simp only [podsLoopStep, hp]
      rw [ih, hdet]

theorem podsCmdStep_objects (W : Cluster σ PSP Diff) (objects : σ → κ)
    (hread : ReadsPreserve W objects)
    (hdet : ∀ s pod ignore, objects (W.IsPodBeingMutatedByPSP s pod ignore).next = objects s)
    (G : Globals) (s : σ) :
    objects (podsCmdStep W G s).2 = objects s := by
  cases h : (W.listPods s).err with
  | none =>
    simp only [podsCmdStep, GetPods, h]
    rw [podsLoopStep_objects W objects hdet, hread.2.2]
  | some e =>
    simp only [podsCmdStep, GetPods, h]
    exact hread.2.2 s

/-- The detector of the spec leaves the stored objects as they are when Get does. -/
theorem specDetector_objects (W : Cluster σ PSP Diff) (objects : σ → κ)
    (hread : ReadsPreserve W objects)
    (compare : Pod → PSP → String → Bool × Diff × Option Err) (emptyDiff : Diff)
    (s : σ) (pod : Pod) (ignore : String) :
    objects (specDetector W compare emptyDiff s pod ignore).next = objects s := by
  cases hp : pod.psp with
  | none => simp [specDetector, hp]
  | some pspName =>
    cases he : (W.getPSP s pspName).err with
    | none =>
      simp only [specDetector, hp, he]
      exact hread.2.1 s pspName
    | some e =>
      simp only [specDetector, hp, he]
      exact hread.2.1 s pspName

/-- Every request of a run is one the commands issue themselves or a policy Get
of the detector. -/
theorem mem_requests (t : List (Event PSP Diff)) (c : ClientCall) (h : c ∈ requests t) :
    c ∈ clientCalls t ∨ ∃ pspName, c = pspGetCall pspName := by
  induction t with
  | nil => simp [requests] at h
  | cons ev rest ih =>
    simp only [requests, List.flatMap_cons, List.mem_append] at h ih
    rcases h with h | h
    · cases ev with
      | client c2 =>
        simp at h
        subst h
        exact Or.inl (by simp [clientCalls])
      | detect pod ign m d e =>
        right
        simp only [detectorRequests] at h
        cases hp : pod.psp with
        | none => simp [hp] at h
        | some pspName =>
          simp [hp] at h
          exact ⟨pspName, h⟩
      | analyze _ _ _ _ => simp at h
      | stdout _ => simp at h
      | log _ => simp at h
      | tableHeader _ => simp at h
      | tableAppend _ => simp at h
      | tableRender => simp at h
    · rcases ih h with h2 | h2
      · left
        unfold clientCalls at h2 ⊢
        rw [List.mem_filterMap] at h2 ⊢
        obtain ⟨a, ha, hc⟩ := h2
        exact ⟨a, List.mem_cons_of_mem _ ha, hc⟩
      · exact Or.inr h2

end FrameStateLemmas

section BatchClaims

variable {σ PSP Diff : Type}

/-! ## Batch mode: `mutating pods` -/

/-- C3: in `mutating pods`, once the pod list has been obtained, detector errors
do not abort the batch.  Whatever the detector answers on each pod, the command
returns without exiting, the detector is called on every pod carrying the
`kubernetes.io/psp` annotation (so also on those after a failing one), the error
of every failing call is logged, the table has as many rows as there are
annotated pods, and the table is rendered as the last effect of the run. -/
theorem podsCmd_detector_errors_do_not_abort (W : Cluster σ PSP Diff) (G : Globals) (s : σ)
    (h : (W.listPods s).err = none) :
    (podsCmd W G s).outcome = .returned ∧
      detectCalls (podsCmd W G s).events =
        detections W (W.listPods s).next (annotatedPods (W.listPods s).val) ∧
      (detectCalls (podsCmd W G s).events).map (fun c => c.pod) =
        annotatedPods (W.listPods s).val ∧
      logLines (podsCmd W G s).events =
        (detectCalls (podsCmd W G s).events).filterMap (fun c =>
          c.err.map (fun e => "error occured checking if pod is mutated: " ++ e.text ++ "\n")) ∧
      (tableRows (podsCmd W G s).events).length =
        ((W.listPods s).val.filter (fun pod => pod.psp.isSome)).length ∧
      rendered (podsCmd W G s).events = true ∧
      (podsCmd W G s).events.getLast? = some .tableRender := by
  have hd : detectCalls (podsCmd W G s).events =
      detections W (W.listPods s).next (annotatedPods (W.listPods s).val) := by
    rw [podsCmd_ok W G s h]
    simp [detectCalls, List.filterMap_append]
    exact podsLoop_detectCalls W _ _
  have hl : logLines (podsCmd W G s).events =
      (detections W (W.listPods s).next (annotatedPods (W.listPods s).val)).filterMap logOf := by
    rw [podsCmd_ok W G s h]
    simp [logLines, List.filterMap_append]
    exact podsLoop_logLines W _ _
  have ht : tableRows (podsCmd W G s).events =
      (detections W (W.listPods s).next (annotatedPods (W.listPods s).val)).map rowOf := by
    rw [podsCmd_ok W G s h]
    simp [tableRows, List.filterMap_append]
    exact podsLoop_tableRows W _ _
  refine ⟨?_, hd, ?_, ?_, ?_, ?_, ?_⟩
  · rw [podsCmd_ok W G s h]
  · rw [hd, detections_pods]
  · rw [hl, hd]
    rfl
  · rw [ht, List.length_map, detections_length]
    rfl
  · rw [podsCmd_ok W G s h]
    simp [rendered]
  · rw [podsCmd_ok W G s h]
    exact List.getLast?_concat _

/-- Witness of C3 on `failingCluster`, whose detector fails on every pod with
an error of its own: both annotated pods are detected, both errors are logged
with their text, both rows are appended. -/
theorem podsCmd_detector_errors_do_not_abort_witness :
    (failingCluster.listPods ()).err = none ∧
      (podsCmd failingCluster demoGlobals ()).outcome = .returned ∧
      (detectCalls (podsCmd failingCluster demoGlobals ()).events).map (fun c => c.pod) =
        [webPod, dbPod] ∧
      logLines (podsCmd failingCluster demoGlobals ()).events =
        ["error occured checking if pod is mutated: policy of web not found\n",
          "error occured checking if pod is mutated: policy of db not found\n"] ∧
      (tableRows (podsCmd failingCluster demoGlobals ()).events).length = 2 ∧
      (podsCmd failingCluster demoGlobals ()).events.getLast? = some .tableRender :=
  have h := podsCmd_detector_errors_do_not_abort failingCluster demoGlobals () rfl
  ⟨rfl, h.1, h.2.2.1.trans (by decide), h.2.2.2.1.trans (by decide),
    h.2.2.2.2.1.trans (by decide), h.2.2.2.2.2.2⟩

/-- C4 as the code has it: in `mutating pods`, the error of a failed detection
is written to the log, and the row of that pod is the plain row name, namespace,
formatted `mutated` value returned along with the error, annotation value; the
table of the run is the table of the run in which every detection succeeds with
the same `mutated` values. -/
theorem podsCmd_failed_detection_row (W : Cluster σ PSP Diff) (G : Globals) (s : σ)
    (h : (W.listPods s).err = none) :
    (∀ c ∈ detectCalls (podsCmd W G s).events, ∀ e, c.err = some e →
        ("error occured checking if pod is mutated: " ++ e.text ++ "\n") ∈
          logLines (podsCmd W G s).events ∧
        ∃ pspName, c.pod.psp = some pspName ∧
          [c.pod.Name, c.pod.Namespace, if c.mutated = true then "true" else "false", pspName] ∈
            tableRows (podsCmd W G s).events) ∧
      logLines (podsCmd W G s).events =
        (detectCalls (podsCmd W G s).events).filterMap (fun c =>
          c.err.map (fun e => "error occured checking if pod is mutated: " ++ e.text ++ "\n")) ∧
      tableRows (podsCmd W G s).events =
        (detectCalls (podsCmd W G s).events).map (fun c =>
          [c.pod.Name, c.pod.Namespace, if c.mutated = true then "true" else "false",
            c.pod.psp.getD ""]) ∧
      tableRows (podsCmd W G s).events =
        tableRows (podsCmd W.withoutDetectorErrors G s).events := by
  have hd : detectCalls (podsCmd W G s).events =
      detections W (W.listPods s).next (annotatedPods (W.listPods s).val) := by
    rw [podsCmd_ok W G s h]
    simp [detectCalls, List.filterMap_append]
    exact podsLoop_detectCalls W _ _
  have hl : logLines (podsCmd W G s).events =
      (detections W (W.listPods s).next (annotatedPods (W.listPods s).val)).filterMap logOf := by
    rw [podsCmd_ok W G s h]
    simp [logLines, List.filterMap_append]
    exact podsLoop_logLines W _ _
  have ht : ∀ V : Cluster σ PSP Diff, (V.listPods s).err = none →
      tableRows (podsCmd V G s).events =
        (detections V (V.listPods s).next (annotatedPods (V.listPods s).val)).map rowOf := by
    intro V hV
    rw [podsCmd_ok V G s hV]
    simp [tableRows, List.filterMap_append]
    exact podsLoop_tableRows V _ _
  have hrow : ∀ c : DetectCall Diff, rowOf c =
      [c.pod.Name, c.pod.Namespace, if c.mutated = true then "true" else "false",
        c.pod.psp.getD ""] := by
    intro c
    cases hm : c.mutated <;> simp [rowOf, hm, FormatBool]
  refine ⟨?_, ?_, ?_, ?_⟩
  · intro c hc e he
    rw [hd] at hc
    constructor
    · rw [hl, List.mem_filterMap]
      exact ⟨c, hc, by simp [logOf, he, detectErrorLog]⟩
    · have hp : c.pod ∈ annotatedPods (W.listPods s).val := by
        rw [← detections_pods W (W.listPods s).next (annotatedPods (W.listPods s).val)]
        exact List.mem_map_of_mem _ hc
      have hsome : c.pod.psp.isSome = true := by
        simpa [annotatedPods] using (List.mem_filter.mp hp).2
      obtain ⟨v, hv⟩ := Option.isSome_iff_exists.mp hsome
      refine ⟨v, hv, ?_⟩
      rw [ht W h]
      have := List.mem_map_of_mem rowOf hc
      rw [hrow c, hv] at this
      simpa using this
  · rw [hl, hd]
    rfl
  · rw [ht W h, hd]
    exact List.map_congr_left (fun c _ => hrow c)
  · have h2 : (W.withoutDetectorErrors.listPods s).err = none := h
    rw [ht W h, ht _ h2]
    exact (detections_withoutDetectorErrors W _ _).symm

/-- Witness of the amended C4 on `brokenCluster`: the failed detection of `web`
is logged with the text of its error and its row is the plain row. -/
theorem podsCmd_failed_detection_row_witness :
    (brokenCluster.listPods ()).err = none ∧
      "error occured checking if pod is mutated: malformed policy\n" ∈
        logLines (podsCmd brokenCluster demoGlobals ()).events ∧
      (∃ pspName, webPod.psp = some pspName ∧
        ["web", "default", "false", pspName] ∈
          tableRows (podsCmd brokenCluster demoGlobals ()).events) ∧
      logLines (podsCmd brokenCluster demoGlobals ()).events =
        ["error occured checking if pod is mutated: malformed policy\n"] ∧
      tableRows (podsCmd brokenCluster demoGlobals ()).events =
        tableRows (podsCmd brokenCluster.withoutDetectorErrors demoGlobals ()).events :=
  have h := podsCmd_failed_detection_row brokenCluster demoGlobals () rfl
  have k := h.1 ⟨webPod, "", false, "", some detectErr⟩ (by decide) detectErr rfl
  ⟨rfl, k.1, k.2, h.2.1.trans (by decide), h.2.2.2⟩

/-- Counterexample to C4: the pod `web` fails detection in `brokenCluster` and
passes it in `repairedCluster`, and its table row is the same in both runs,
`web default false restricted`; the row carries no error marker. -/
theorem podsCmd_no_error_marker :
    (detectCalls (podsCmd brokenCluster demoGlobals ()).events).map (fun c => (c.pod.Name, c.err))
        = [("web", some detectErr), ("db", none)] ∧
      (detectCalls (podsCmd repairedCluster demoGlobals ()).events).map
        (fun c => (c.pod.Name, c.err)) = [("web", none), ("db", none)] ∧
      tableRows (podsCmd brokenCluster demoGlobals ()).events =
        [["web", "default", "false", "restricted"], ["db", "prod", "true", "privileged"]] ∧
      tableRows (podsCmd repairedCluster demoGlobals ()).events =
        [["web", "default", "false", "restricted"], ["db", "prod", "true", "privileged"]] := by
  decide

end BatchClaims

section SingleClaims

variable {σ PSP Diff : Type}

/-! ## Lookup errors -/

/-- C9: the error of the pod lookup of `mutating pod` and of the policy lookup
of `mutating psp` takes exactly one branch.  A NotFound error prints the
"not found" message and no "Error getting" message; a status error that is not
NotFound prints the "Error getting" message, which holds the status message
unchanged; any other error is logged with its own text and a newline; each of
the three ends the process with `os.Exit(1)` after the lookup alone.  Without an error no
such branch is taken and the run goes on. -/
theorem lookup_error_kinds (W : Cluster σ PSP Diff) (G : Globals) (name : String) (s : σ) :
    (∀ e, (W.getPod s G.Namespace name).err = some e →
      ((podCmd W G name s).outcome = .exit 1 ∧ (podCmd W G name s).outcome.status = 1) ∧
      (e.isNotFound = true →
        (podCmd W G name s).events =
          [.client (podGetCall G.Namespace name),
            .stdout ("Pod " ++ name ++ " in namespace " ++ G.Namespace ++ " not found\n")] ∧
        ∀ msg, ("Error getting pod " ++ name ++ " in namespace " ++ G.Namespace ++ ": " ++ msg ++ "\n")
          ∉ stdoutLines (podCmd W G name s).events) ∧
      (e.isNotFound = false → ∀ msg, e.status = some msg →
        (podCmd W G name s).events =
          [.client (podGetCall G.Namespace name),
            .stdout ("Error getting pod " ++ name ++ " in namespace " ++ G.Namespace ++ ": "
              ++ msg ++ "\n")] ∧
        msg.data <:+: ("Error getting pod " ++ name ++ " in namespace " ++ G.Namespace ++ ": "
          ++ msg ++ "\n").data) ∧
      (e.isNotFound = false → e.status = none →
        (podCmd W G name s).events =
          [.client (podGetCall G.Namespace name), .log (e.text ++ "\n")])) ∧
    ((W.getPod s G.Namespace name).err = none →
      (podCmd W G name s).events =
        .client (podGetCall G.Namespace name) ::
          (podCmdDetect W G (W.getPod s G.Namespace name).val
            (W.getPod s G.Namespace name).next).events) ∧
    (∀ e, (W.getPSP s name).err = some e →
      ((pspCmd W G name s).outcome = .exit 1 ∧ (pspCmd W G name s).outcome.status = 1) ∧
      (e.isNotFound = true →
        (pspCmd W G name s).events =
          [.client (pspGetCall name), .stdout ("PodSecurityPolicy " ++ name ++ " not found\n")] ∧
        ∀ msg, ("Error getting PodSecurityPolicy " ++ name ++ ": " ++ msg ++ "\n")
          ∉ stdoutLines (pspCmd W G name s).events) ∧
      (e.isNotFound = false → ∀ msg, e.status = some msg →
        (pspCmd W G name s).events =
          [.client (pspGetCall name),
            .stdout ("Error getting PodSecurityPolicy " ++ name ++ ": " ++ msg ++ "\n")] ∧
        msg.data <:+: ("Error getting PodSecurityPolicy " ++ name ++ ": " ++ msg ++ "\n").data) ∧
      (e.isNotFound = false → e.status = none →
        (pspCmd W G name s).events = [.client (pspGetCall name), .log (e.text ++ "\n")])) ∧
    ((W.getPSP s name).err = none →
      (pspCmd W G name s).outcome = .returned ∧
      logLines (pspCmd W G name s).events = [] ∧
      stdoutLines (pspCmd W G name s).events =
        ["PSP profile " ++ name ++ " has the following mutating fields: "
          ++ fmtStrings (W.IsPSPMutating (W.getPSP s name).val).2.1 ++ " and annotations: "
          ++ fmtStrings (W.IsPSPMutating (W.getPSP s name).val).2.2 ++ "\n"]) := by
  refine ⟨?_, ?_, ?_, ?_⟩
  · intro e he
    refine ⟨?_, ?_, ?_, ?_⟩
    · rw [(podCmd_err_exit W G name s e he).1]
      exact ⟨rfl, rfl⟩
    · intro hn
      have h : IsNotFound (W.getPod s G.Namespace name).err = true := by
        rw [he]
        exact hn
      rw [podCmd_notFound W G name s h]
      refine ⟨rfl, ?_⟩
      intro msg hmem
      simp only [stdoutLines, List.filterMap_cons, List.filterMap_nil, List.mem_singleton] at hmem
      exact podNotFoundMsg_ne name G.Namespace name G.Namespace msg hmem.symm
    · intro hn msg hs
      have h : IsNotFound (W.getPod s G.Namespace name).err = false := by
        rw [he]
        exact hn
      have h2 : asStatusError (W.getPod s G.Namespace name).err = some msg := by
        rw [he]
        exact hs
      rw [podCmd_status W G name s msg h h2]
      exact ⟨rfl, podGetErrorMsg_holds name G.Namespace msg⟩
    · intro hn hs
      have h : IsNotFound (W.getPod s G.Namespace name).err = false := by
        rw [he]
        exact hn
      have h2 : asStatusError (W.getPod s G.Namespace name).err = none := by
        rw [he]
        exact hs
      rw [podCmd_other W G name s e h h2 he]
      rfl
  · intro he
    rw [podCmd_ok W G name s he]
  · intro e he
    refine ⟨?_, ?_, ?_, ?_⟩
    · rw [(pspCmd_err_exit W G name s e he).1]
      exact ⟨rfl, rfl⟩
    · intro hn
      have h : IsNotFound (W.getPSP s name).err = true := by
        rw [he]
        exact hn
      rw [pspCmd_notFound W G name s h]
      refine ⟨rfl, ?_⟩
      intro msg hmem
      simp only [stdoutLines, List.filterMap_cons, List.filterMap_nil, List.mem_singleton] at hmem
      exact pspNotFoundMsg_ne name name msg hmem.symm
    · intro hn msg hs
      have h : IsNotFound (W.getPSP s name).err = false := by
        rw [he]
        exact hn
      have h2 : asStatusError (W.getPSP s name).err = some msg := by
        rw [he]
        exact hs
      rw [pspCmd_status W G name s msg h h2]
      exact ⟨rfl, pspGetErrorMsg_holds name msg⟩
    · intro hn hs
      have h : IsNotFound (W.getPSP s name).err = false := by
        rw [he]
        exact hn
      have h2 : asStatusError (W.getPSP s name).err = none := by
        rw [he]
        exact hs
      rw [pspCmd_other W G name s e h h2 he]
      rfl
  · intro he
    rw [pspCmd_ok W G name s he]
    simp [logLines, stdoutLines, pspProfileMsg]

/-- Witness of C9: a NotFound status error, another status error and an error
that is no status error, on the pod lookup and on the policy lookup. -/
theorem lookup_error_kinds_witness :
    (podCmd demoCluster demoGlobals "gone" ()).events =
        [.client (podGetCall "default" "gone"),
          .stdout "Pod gone in namespace default not found\n"] ∧
      (pspCmd demoCluster demoGlobals "gone" ()).events =
        [.client (pspGetCall "gone"), .stdout "PodSecurityPolicy gone not found\n"] ∧
      (podCmd forbiddenCluster demoGlobals "web" ()).events =
        [.client (podGetCall "default" "web"),
          .stdout "Error getting pod web in namespace default: forbidden: access denied\n"] ∧
      (pspCmd forbiddenCluster demoGlobals "web" ()).events =
        [.client (pspGetCall "web"),
          .stdout "Error getting PodSecurityPolicy web: forbidden: access denied\n"] ∧
      (podCmd unreachableCluster demoGlobals "web" ()).events =
        [.client (podGetCall "default" "web"), .log "dial tcp: connection refused\n"] ∧
      (pspCmd unreachableCluster demoGlobals "restricted" ()).events =
        [.client (pspGetCall "restricted"), .log "dial tcp: connection refused\n"] ∧
      (podCmd demoCluster demoGlobals "gone" ()).outcome = .exit 1 ∧
      (pspCmd unreachableCluster demoGlobals "restricted" ()).outcome = .exit 1 :=
  have d := lookup_error_kinds demoCluster demoGlobals "gone" ()
  have f := lookup_error_kinds forbiddenCluster demoGlobals "web" ()
  have u := lookup_error_kinds unreachableCluster demoGlobals "web" ()
  have k := lookup_error_kinds unreachableCluster demoGlobals "restricted" ()
  ⟨((d.1 (notFoundErr "pod gone") rfl).2.1 rfl).1,
    ((d.2.2.1 (notFoundErr "podsecuritypolicy gone") rfl).2.1 rfl).1,
    ((f.1 forbiddenErr rfl).2.2.1 rfl "forbidden: access denied" rfl).1,
    ((f.2.2.1 forbiddenErr rfl).2.2.1 rfl "forbidden: access denied" rfl).1,
    (u.1 dialErr rfl).2.2.2 rfl rfl,
    (k.2.2.1 dialErr rfl).2.2.2 rfl rfl,
    (d.1 (notFoundErr "pod gone") rfl).1.1,
    (k.2.2.1 dialErr rfl).1.1⟩

/-! ## `mutating pod` -/

/-- C1 on the code: in `mutating pod`, when the pod is found, the detection
succeeds and the policy named by the pod's annotation is not found, the command
prints the "not found" message and returns; the process ends with exit status 0.
The claim asks for a non-zero exit status, as the pod lookup of the same command
and the policy lookup of `mutating psp` give. -/
theorem podCmd_policy_notFound_exit_zero :
    IsNotFound (staleCluster.getPSP () "restricted").err = true ∧
      podCmd staleCluster demoGlobals "web" () =
        ⟨[.client (podGetCall "default" "web"),
          .detect webPod "istio-proxy" false "" none,
          .stdout "Pod web is mutated by PSP restricted: false, diff: \n",
          .client (pspGetCall "restricted"),
          .stdout "PodSecurityPolicy restricted not found\n"], .returned⟩ ∧
      (podCmd staleCluster demoGlobals "web" ()).outcome.status = 0 ∧
      (pspCmd staleCluster demoGlobals "restricted" ()).outcome.status = 1 ∧
      (podCmd staleCluster demoGlobals "gone" ()).outcome.status = 1 := by
  decide

/-- C2: in `mutating pod` the detector is called exactly when the pod lookup
returned no error (once, on the pod returned), and when the detector returns an
error the error is logged, the process exits with status 1, nothing is printed
to stdout, the client sees no request after the pod lookup and the analyzer is
never called, whatever the annotations of the pod. -/
theorem podCmd_detector_gate (W : Cluster σ PSP Diff) (G : Globals) (pod : String) (s : σ) :
    ((W.getPod s G.Namespace pod).err = none →
      (detectCalls (podCmd W G pod s).events).map (fun c => (c.pod, c.containersToIgnore)) =
        [((W.getPod s G.Namespace pod).val, G.ContainersToIgnore)]) ∧
    ((W.getPod s G.Namespace pod).err ≠ none → detectCalls (podCmd W G pod s).events = []) ∧
    (∀ e, (W.getPod s G.Namespace pod).err = none →
      (W.IsPodBeingMutatedByPSP (W.getPod s G.Namespace pod).next
        (W.getPod s G.Namespace pod).val G.ContainersToIgnore).err = some e →
      logLines (podCmd W G pod s).events = [e.text ++ "\n"] ∧
      (podCmd W G pod s).outcome = .exit 1 ∧
      stdoutLines (podCmd W G pod s).events = [] ∧
      clientCalls (podCmd W G pod s).events = [podGetCall G.Namespace pod] ∧
      analyzeCalls (podCmd W G pod s).events = []) := by
  refine ⟨?_, ?_, ?_⟩
  · intro he
    rw [podCmd_detectCalls_ok W G pod s he]
    rfl
  · intro hne
    cases he : (W.getPod s G.Namespace pod).err with
    | none => exact absurd he hne
    | some e => exact (podCmd_err_exit W G pod s e he).2.1
  · intro e he hd
    rw [podCmd_ok W G pod s he, podCmdDetect_err W G _ _ e hd]
    simp [logLines, stdoutLines, clientCalls, analyzeCalls, errorLog]

/-- Witness of C2 on `brokenCluster`: the detector fails on the annotated pod `web`. -/
theorem podCmd_detector_gate_witness :
    podCmd brokenCluster demoGlobals "web" () =
        ⟨[.client (podGetCall "default" "web"),
          .detect webPod "istio-proxy" false "" (some detectErr),
          .log "malformed policy\n"], .exit 1⟩ ∧
      logLines (podCmd brokenCluster demoGlobals "web" ()).events = ["malformed policy\n"] ∧
      stdoutLines (podCmd brokenCluster demoGlobals "web" ()).events = [] :=
  have h := (podCmd_detector_gate brokenCluster demoGlobals "web" ()).2.2 detectErr rfl rfl
  ⟨by decide, h.1, h.2.2.1⟩

/-! ## `mutating psp` -/

end SingleClaims

section CrossClaims

variable {σ PSP Diff : Type}

/-! ## Properties of the three commands together -/

/-- Counterexample to C5: `mutating pod` on a pod without the
`kubernetes.io/psp` annotation, found and detected without error, prints
nothing, renders nothing, and ends with exit status 0. -/
theorem podCmd_unannotated_silent :
    podCmd demoCluster demoGlobals "plain" () =
        ⟨[.client (podGetCall "default" "plain"),
          .detect plainPod "istio-proxy" false "" none], .returned⟩ ∧
      stdoutLines (podCmd demoCluster demoGlobals "plain" ()).events = [] ∧
      logLines (podCmd demoCluster demoGlobals "plain" ()).events = [] ∧
      rendered (podCmd demoCluster demoGlobals "plain" ()).events = false ∧
      (podCmd demoCluster demoGlobals "plain" ()).outcome.status = 0 := by
  decide

/-- C5 as the code has it: a run of `mutating pods` ends with exit status 1 or
prints the pod count and renders the table; a run of `mutating psp` ends with
exit status 1 or prints the profile line; a run of `mutating pod` ends with exit
status 1, or prints the report line of an annotated pod, or, for a pod without
the annotation, prints nothing and ends with exit status 0.  A run whose pod
lookup (`mutating pod`), pod listing (`mutating pods`) or policy lookup
(`mutating psp`) failed ends with exit status 1. -/
theorem summary_or_exit (W : Cluster σ PSP Diff) (G : Globals) (name : String) (s : σ) :
    ((podsCmd W G s).outcome.status = 1 ∨
      (stdoutLines (podsCmd W G s).events =
          ["There are " ++ toString (W.listPods s).val.length ++ " pods in the cluster\n"] ∧
        rendered (podsCmd W G s).events = true)) ∧
    ((pspCmd W G name s).outcome.status = 1 ∨
      stdoutLines (pspCmd W G name s).events =
        ["PSP profile " ++ name ++ " has the following mutating fields: "
          ++ fmtStrings (W.IsPSPMutating (W.getPSP s name).val).2.1 ++ " and annotations: "
          ++ fmtStrings (W.IsPSPMutating (W.getPSP s name).val).2.2 ++ "\n"]) ∧
    ((podCmd W G name s).outcome.status = 1 ∨
      (∃ pspName, (W.getPod s G.Namespace name).val.psp = some pspName ∧
        ("Pod " ++ (W.getPod s G.Namespace name).val.Name ++ " is mutated by PSP " ++ pspName
          ++ ": " ++ FormatBool (W.IsPodBeingMutatedByPSP (W.getPod s G.Namespace name).next
            (W.getPod s G.Namespace name).val G.ContainersToIgnore).val.1
          ++ ", diff: " ++ W.fmtDiff (W.IsPodBeingMutatedByPSP (W.getPod s G.Namespace name).next
            (W.getPod s G.Namespace name).val G.ContainersToIgnore).val.2 ++ "\n") ∈
          stdoutLines (podCmd W G name s).events) ∨
      ((W.getPod s G.Namespace name).val.psp = none ∧
        stdoutLines (podCmd W G name s).events = [] ∧
        (podCmd W G name s).outcome.status = 0)) ∧
    ((W.getPod s G.Namespace name).err ≠ none → (podCmd W G name s).outcome.status = 1) ∧
    ((W.listPods s).err ≠ none → (podsCmd W G s).outcome.status = 1) ∧
    ((W.getPSP s name).err ≠ none → (pspCmd W G name s).outcome.status = 1) := by
  have hpod : ∀ e, (W.getPod s G.Namespace name).err = some e →
      (podCmd W G name s).outcome.status = 1 := by
    intro e he
    rw [(podCmd_err_exit W G name s e he).1]
    rfl
  have hpsp : ∀ e, (W.getPSP s name).err = some e →
      (pspCmd W G name s).outcome.status = 1 := by
    intro e he
    rw [(pspCmd_err_exit W G name s e he).1]
    rfl
  have hpods : ∀ e, (W.listPods s).err = some e → (podsCmd W G s).outcome.status = 1 := by
    intro e he
    rw [podsCmd_err W G s e he]
    rfl
  refine ⟨?_, ?_, ?_, ?_, ?_, ?_⟩
  · cases h : (W.listPods s).err with
    | some e => exact Or.inl (hpods e h)
    | none =>
      refine Or.inr ⟨?_, ?_⟩
      · rw [podsCmd_ok W G s h]
        have := (podsLoop_quiet W (W.listPods s).next (W.listPods s).val).1
        simp only [stdoutLines] at this
        simp [stdoutLines, List.filterMap_append, this, podCountMsg]
      · rw [podsCmd_ok W G s h]
        simp [rendered]
  · cases h : (W.getPSP s name).err with
    | some e => exact Or.inl (hpsp e h)
    | none =>
      refine Or.inr ?_
      rw [pspCmd_ok W G name s h]
      simp [stdoutLines, pspProfileMsg]
  · cases h : (W.getPod s G.Namespace name).err with
    | some e => exact Or.inl (hpod e h)
    | none =>
      cases hd : (W.IsPodBeingMutatedByPSP (W.getPod s G.Namespace name).next
          (W.getPod s G.Namespace name).val G.ContainersToIgnore).err with
      | some e =>
        refine Or.inl ?_
        rw [podCmd_ok W G name s h, podCmdDetect_err W G _ _ e hd]
        rfl
      | none =>
        rcases podCmd_ok_report W G name s h hd with hr | ⟨hn, ho, _, hret⟩
        · exact Or.inr (Or.inl hr)
        · refine Or.inr (Or.inr ⟨hn, ho, ?_⟩)
          rw [hret]
          rfl
  · intro hne
    cases h : (W.getPod s G.Namespace name).err with
    | none => exact absurd h hne
    | some e => exact hpod e h
  · intro hne
    cases h : (W.listPods s).err with
    | none => exact absurd h hne
    | some e => exact hpods e h
  · intro hne
    cases h : (W.getPSP s name).err with
    | none => exact absurd h hne
    | some e => exact hpsp e h

/-- Witness of the amended C5: on a cluster that cannot be reached each of the
three commands ends with exit status 1; on `demoCluster` the commands print
their summaries. -/
theorem summary_or_exit_witness :
    (podCmd unreachableCluster demoGlobals "web" ()).outcome.status = 1 ∧
      (podsCmd unreachableCluster demoGlobals ()).outcome.status = 1 ∧
      (pspCmd unreachableCluster demoGlobals "web" ()).outcome.status = 1 ∧
      stdoutLines (podsCmd demoCluster demoGlobals ()).events =
        ["There are 3 pods in the cluster\n"] ∧
      stdoutLines (pspCmd demoCluster demoGlobals "restricted" ()).events =
        ["PSP profile restricted has the following mutating fields: [runAsUser fsGroup]"
          ++ " and annotations: [seccomp]\n"] ∧
      "Pod web is mutated by PSP restricted: false, diff: \n" ∈
        stdoutLines (podCmd demoCluster demoGlobals "web" ()).events :=
  have h := summary_or_exit unreachableCluster demoGlobals "web" ()
  have d := summary_or_exit demoCluster demoGlobals "restricted" ()
  ⟨h.2.2.2.1 (by decide), h.2.2.2.2.1 (by decide), h.2.2.2.2.2 (by decide),
    (d.1.resolve_left (by decide)).1.trans (by decide),
    (d.2.1.resolve_left (by decide)).trans (by decide), by decide⟩

/-- C6: the ignore string reaches the detector only, and only in `mutating pod`.
`mutating pod` calls the detector with the caller's `ContainersToIgnore`
unchanged and uses the string for nothing else (runs whose detector answers
alike print, log, request and end alike); `mutating pods` calls the detector
with the empty string and its run does not depend on `ContainersToIgnore`;
`mutating psp` never calls the detector and its run does not depend on it
either; every analyzer call in any of the three commands returns what the
analyzer computes from the policy object alone. -/
theorem ignore_list_flow (W : Cluster σ PSP Diff) (G : Globals) (name : String) (s : σ) :
    (∀ c ∈ detectCalls (podCmd W G name s).events,
      c.containersToIgnore = G.ContainersToIgnore) ∧
    ((W.getPod s G.Namespace name).err = none →
      ∃ c, detectCalls (podCmd W G name s).events = [c] ∧
        c.containersToIgnore = G.ContainersToIgnore ∧
        c.err = (W.IsPodBeingMutatedByPSP (W.getPod s G.Namespace name).next
          (W.getPod s G.Namespace name).val G.ContainersToIgnore).err ∧
        (c.mutated, c.diff) = (W.IsPodBeingMutatedByPSP (W.getPod s G.Namespace name).next
          (W.getPod s G.Namespace name).val G.ContainersToIgnore).val) ∧
    (∀ ignore,
      W.IsPodBeingMutatedByPSP (W.getPod s G.Namespace name).next
          (W.getPod s G.Namespace name).val ignore =
        W.IsPodBeingMutatedByPSP (W.getPod s G.Namespace name).next
          (W.getPod s G.Namespace name).val G.ContainersToIgnore →
      stdoutLines (podCmd W ⟨G.Namespace, ignore⟩ name s).events =
          stdoutLines (podCmd W G name s).events ∧
        logLines (podCmd W ⟨G.Namespace, ignore⟩ name s).events =
          logLines (podCmd W G name s).events ∧
        clientCalls (podCmd W ⟨G.Namespace, ignore⟩ name s).events =
          clientCalls (podCmd W G name s).events ∧
        analyzeCalls (podCmd W ⟨G.Namespace, ignore⟩ name s).events =
          analyzeCalls (podCmd W G name s).events ∧
        (podCmd W ⟨G.Namespace, ignore⟩ name s).outcome = (podCmd W G name s).outcome) ∧
    (∀ c ∈ detectCalls (podsCmd W G s).events, c.containersToIgnore = "") ∧
    (∀ ignore, podsCmd W ⟨G.Namespace, ignore⟩ s = podsCmd W G s) ∧
    detectCalls (pspCmd W G name s).events = [] ∧
    (∀ ignore, pspCmd W ⟨G.Namespace, ignore⟩ name s = pspCmd W G name s) ∧
    (∀ p m f a,
      (Event.analyze p m f a ∈ (podCmd W G name s).events ∨
        Event.analyze p m f a ∈ (podsCmd W G s).events ∨
        Event.analyze p m f a ∈ (pspCmd W G name s).events) →
      (m, f, a) = W.IsPSPMutating p) := by
  refine ⟨?_, ?_, fun ignore h => podCmd_ignore_only_detector W G name s ignore h,
    podsCmd_detect_ignore W G s, fun _ => rfl, pspCmd_detectCalls W G name s, fun _ => rfl, ?_⟩
  · cases he : (W.getPod s G.Namespace name).err with
    | some e =>
      rw [(podCmd_err_exit W G name s e he).2.1]
      simp
    | none =>
      rw [podCmd_detectCalls_ok W G name s he]
      simp
  · intro he
    exact ⟨_, podCmd_detectCalls_ok W G name s he, rfl, rfl, rfl⟩
  · intro p m f a h
    rcases h with h | h | h
    · exact podCmd_analyze_mem W G name s p m f a h
    · have hm := mem_analyzeCalls _ p m f a h
      rw [podsCmd_analyzeCalls W G s] at hm
      simp at hm
    · exact pspCmd_analyze_mem W G name s p m f a h

/-- Witness of C6 on `demoCluster` with `ContainersToIgnore = "istio-proxy"`. -/
theorem ignore_list_flow_witness :
    (detectCalls (podCmd demoCluster demoGlobals "web" ()).events).map
        (fun c => c.containersToIgnore) = ["istio-proxy"] ∧
      (detectCalls (podsCmd demoCluster demoGlobals ()).events).map
        (fun c => c.containersToIgnore) = ["", ""] ∧
      (true, ["runAsUser", "fsGroup"], ["seccomp"]) = demoCluster.IsPSPMutating "restricted" :=
  have h := ignore_list_flow demoCluster demoGlobals "web" ()
  ⟨by decide, by decide,
    h.2.2.2.2.2.2.2 "restricted" true ["runAsUser", "fsGroup"] ["seccomp"] (Or.inl (by decide))⟩

/-- C8: the three commands only read the cluster.  Whatever the detector, the
requests the `Run` functions issue themselves are the pod Get and at most one
policy Get (`mutating pod`), the pod List of `GetPods` (`mutating pods`) and the
policy Get (`mutating psp`).  With the detector of the spec, which reads the
bound policy and does nothing else on the client, every request that reaches the
client in a run, the detector's included, has the verb `get` or `list`, never
`create`, `update`, `patch` or `delete`; and on a cluster whose Get and List
leave the stored objects as they are, the objects stored after each run are the
objects stored before it. -/
theorem commands_only_read {κ : Type} (W : Cluster σ PSP Diff)
    (compare : Pod → PSP → String → Bool × Diff × Option Err) (emptyDiff : Diff)
    (objects : σ → κ) (hread : ReadsPreserve W objects)
    (G : Globals) (name : String) (s : σ) :
    ((clientCalls (podCmd W G name s).events = [podGetCall G.Namespace name] ∨
        ∃ pspName, clientCalls (podCmd W G name s).events =
          [podGetCall G.Namespace name, pspGetCall pspName]) ∧
      clientCalls (podsCmd W G s).events = [podListCall] ∧
      clientCalls (pspCmd W G name s).events = [pspGetCall name]) ∧
    (∀ c,
      (c ∈ requests (podCmd (W.withSpecDetector compare emptyDiff) G name s).events ∨
        c ∈ requests (podsCmd (W.withSpecDetector compare emptyDiff) G s).events ∨
        c ∈ requests (pspCmd (W.withSpecDetector compare emptyDiff) G name s).events) →
      (c.verb = .get ∨ c.verb = .list) ∧
        c.verb ≠ .create ∧ c.verb ≠ .update ∧ c.verb ≠ .updateStatus ∧ c.verb ≠ .patch ∧
        c.verb ≠ .delete ∧ c.verb ≠ .deleteCollection) ∧
    ((podCmdStep (W.withSpecDetector compare emptyDiff) G name s).1 =
        podCmd (W.withSpecDetector compare emptyDiff) G name s ∧
      (podsCmdStep (W.withSpecDetector compare emptyDiff) G s).1 =
        podsCmd (W.withSpecDetector compare emptyDiff) G s ∧
      (pspCmdStep (W.withSpecDetector compare emptyDiff) G name s).1 =
        pspCmd (W.withSpecDetector compare emptyDiff) G name s) ∧
    (objects (podCmdStep (W.withSpecDetector compare emptyDiff) G name s).2 = objects s ∧
      objects (podsCmdStep (W.withSpecDetector compare emptyDiff) G s).2 = objects s ∧
      objects (pspCmdStep (W.withSpecDetector compare emptyDiff) G name s).2 = objects s) := by
  have hgetpsp : ∀ n, (pspGetCall n).verb = .get := fun _ => rfl
  have hreadV : ReadsPreserve (W.withSpecDetector compare emptyDiff) objects := hread
  have hdetV : ∀ s pod ignore,
      objects ((W.withSpecDetector compare emptyDiff).IsPodBeingMutatedByPSP s pod ignore).next =
        objects s :=
    fun s pod ignore => specDetector_objects W objects hread compare emptyDiff s pod ignore
  have hverbs : ∀ c : ClientCall, (c.verb = .get ∨ c.verb = .list) →
      (c.verb = .get ∨ c.verb = .list) ∧
        c.verb ≠ .create ∧ c.verb ≠ .update ∧ c.verb ≠ .updateStatus ∧ c.verb ≠ .patch ∧
        c.verb ≠ .delete ∧ c.verb ≠ .deleteCollection := by
    intro c hc
    rcases hc with hc | hc <;> simp [hc]
  have hown : ∀ (V : Cluster σ PSP Diff) (c : ClientCall),
      (c ∈ clientCalls (podCmd V G name s).events ∨ c ∈ clientCalls (podsCmd V G s).events ∨
        c ∈ clientCalls (pspCmd V G name s).events) → c.verb = .get ∨ c.verb = .list := by
    intro V c hc
    rcases hc with hc | hc | hc
    · rcases podCmd_clientCalls V G name s with h | ⟨pspName, _, h⟩
      · rw [h] at hc
        simp at hc
        subst hc
        exact Or.inl rfl
      · rw [h] at hc
        simp at hc
        rcases hc with rfl | rfl <;> exact Or.inl rfl
    · rw [podsCmd_clientCalls V G s] at hc
      simp at hc
      subst hc
      exact Or.inr rfl
    · rw [pspCmd_clientCalls V G name s] at hc
      simp at hc
      subst hc
      exact Or.inl rfl
  refine ⟨⟨?_, podsCmd_clientCalls W G s, pspCmd_clientCalls W G name s⟩, ?_,
    ⟨podCmdStep_fst _ G name s, podsCmdStep_fst _ G s, pspCmdStep_fst _ G name s⟩,
    ⟨podCmdStep_objects _ objects hreadV hdetV G name s,
      podsCmdStep_objects _ objects hreadV hdetV G s, ?_⟩⟩
  · rcases podCmd_clientCalls W G name s with h | ⟨pspName, _, h⟩
    · exact Or.inl h
    · exact Or.inr ⟨pspName, h⟩
  · intro c hc
    apply hverbs
    rcases hc with hc | hc | hc
    · rcases mem_requests _ c hc with h | ⟨n, rfl⟩
      · exact hown _ c (Or.inl h)
      · exact Or.inl (hgetpsp n)
    · rcases mem_requests _ c hc with h | ⟨n, rfl⟩
      · exact hown _ c (Or.inr (Or.inl h))
      · exact Or.inl (hgetpsp n)
    · rcases mem_requests _ c hc with h | ⟨n, rfl⟩
      · exact hown _ c (Or.inr (Or.inr h))
      · exact Or.inl (hgetpsp n)
  · rw [pspCmdStep_snd]
    exact hreadV.2.1 s name

/-- Witness of C8 on `countingCluster`, which counts the requests it serves and
stores the policy `restricted`: the requests of `mutating pod web` are the pod
Get, the policy Get of the detector and the policy Get of the command; three
requests are served by each of `mutating pod` and `mutating pods`, one by
`mutating psp`, and the stored policies are as before. -/
theorem commands_only_read_witness :
    ReadsPreserve countingCluster Prod.snd ∧
      requests (podCmd (countingCluster.withSpecDetector demoCompare "") demoGlobals "web"
          (0, ["restricted"])).events =
        [⟨.get, .pods, "default", "web"⟩, ⟨.get, .podsecuritypolicies, "", "restricted"⟩,
          ⟨.get, .podsecuritypolicies, "", "restricted"⟩] ∧
      requests (podsCmd (countingCluster.withSpecDetector demoCompare "") demoGlobals
          (0, ["restricted"])).events =
        [⟨.list, .pods, "", ""⟩, ⟨.get, .podsecuritypolicies, "", "restricted"⟩,
          ⟨.get, .podsecuritypolicies, "", "privileged"⟩] ∧
      (podCmdStep (countingCluster.withSpecDetector demoCompare "") demoGlobals "web"
          (0, ["restricted"])).2 = (3, ["restricted"]) ∧
      (podsCmdStep (countingCluster.withSpecDetector demoCompare "") demoGlobals
          (0, ["restricted"])).2 = (3, ["restricted"]) ∧
      (pspCmdStep (countingCluster.withSpecDetector demoCompare "") demoGlobals "web"
          (0, ["restricted"])).2 = (1, ["restricted"]) ∧
      (podCmdStep (countingCluster.withSpecDetector demoCompare "") demoGlobals "web"
          (0, ["restricted"])).2.2 = ["restricted"] :=
  have hread : ReadsPreserve countingCluster Prod.snd :=
    ⟨fun _ _ _ => rfl, fun _ _ => rfl, fun _ => rfl⟩
  have h := commands_only_read countingCluster demoCompare "" Prod.snd hread demoGlobals "web"
    (0, ["restricted"])
  ⟨hread, by decide, by decide, by decide, by decide, by decide, h.2.2.2.1⟩

end CrossClaims

end Pspmigrator
